import Mathlib

/-!
# Solar system simulation (`prog.cpp`): gravity, orbit velocity, registry update

A shallow embedding of `spawnPlanet`, `applyGravity` and `updatePlanets`.

* The C++ `float` is a type parameter `F` carrying the arithmetic operations and the
  comparison `<`, with no laws assumed; `std::sqrt` is passed as the parameter `sqrt`.
  The definitions are ordinary computable functions.
* The theorems instantiate `F` with `ℝ` and `sqrt` with `Real.sqrt`: they are statements
  of exact real arithmetic, and say nothing about rounding.  Where rounding decides a
  statement, `F` is instantiated with `Binary32`, the finite binary32 values with every
  operation rounded to nearest, ties to even.
* A division whose divisor is zero has no value in real arithmetic and no finite value
  in binary32; it is the fault `Fault.divisionByZero`.
* The Box2D world is a table of body slots.  A `b2Body*` is the index of a slot;
  `CreateBody` appends a slot, `DestroyBody` empties one and records the call.
  Using a pointer whose slot is empty or absent is the fault `Fault.danglingBody`.
* `size_t` is a natural number below `SIZE_MODULUS`; `--i` and `++i` wrap.
-/

namespace SolarSystem

/-! ## Data model -/

/-- Ways in which an execution has no defined result. -/
inductive Fault where
  | divisionByZero
  | danglingBody
  | outOfFuel
  deriving DecidableEq, Repr

/-- The render-space vector `sf::Vector2f`. -/
structure Vector2f (F : Type) where
  x : F
  y : F
  deriving DecidableEq

/-- The physics-space vector `b2Vec2`. -/
structure b2Vec2 (F : Type) where
  x : F
  y : F
  deriving DecidableEq

/-- The colour `sf::Color`, four 8-bit channels. -/
structure Color where
  r : Nat
  g : Nat
  b : Nat
  a : Nat
  deriving DecidableEq, Repr

/-- The vertex `sf::Vertex(position, color)`. -/
structure Vertex (F : Type) where
  position : Vector2f F
  color : Color
  deriving DecidableEq

/-- The primitive type of a vertex array. -/
inductive PrimitiveType where
  | Points
  | LineStrip
  deriving DecidableEq, Repr

/-- The drawable `sf::VertexArray`. -/
structure VertexArray (F : Type) where
  primitiveType : PrimitiveType
  vertices : List (Vertex F)

/-- The drawable `sf::CircleShape`, reduced to the attributes the program sets or reads. -/
structure CircleShape (F : Type) where
  radius : F
  origin : Vector2f F
  fillColor : Color
  position : Vector2f F

/-- A fixture attached to a body (`b2FixtureDef` with a `b2CircleShape`). -/
structure b2Fixture (F : Type) where
  radius : F
  density : F
  friction : F
  restitution : F

/-- The engine-side state of one dynamic body. -/
structure b2Body (F : Type) where
  position : b2Vec2 F
  linearVelocity : b2Vec2 F
  force : b2Vec2 F
  fixtures : List (b2Fixture F)

/-- The physics world: one slot per body ever created (`none` once destroyed), and
the handles passed to `DestroyBody`, oldest first. -/
structure b2World (F : Type) where
  bodies : List (Option (b2Body F))
  destroyed : List Nat

/-- The record `struct Planet`; `body` is the `b2Body*`, an index into the world. -/
structure Planet (F : Type) where
  shape : CircleShape F
  trail : VertexArray F
  body : Nat

/-- The modulus of `size_t` arithmetic. -/
def SIZE_MODULUS : Nat := 18446744073709551616

section Operations

variable {F : Type} [Zero F] [One F] [NatCast F] [Add F] [Sub F] [Mul F] [Div F] [Neg F]
  [Pow F ℕ] [Max F] [LT F] [DecidableRel (LT.lt : F → F → Prop)] [DecidableEq F]

/-- Division in real arithmetic: undefined for a zero divisor. -/
def divide (a b : F) : Except Fault F :=
  if b = 0 then .error .divisionByZero else .ok (a / b)

/-! ## The physics engine boundary -/

/-- Dereference a body pointer. -/
def b2World.body (world : b2World F) (handle : Nat) : Except Fault (b2Body F) :=
  match world.bodies[handle]? with
  | some (some b) => .ok b
  | _ => .error .danglingBody

/-- Overwrite the state of a live body. -/
def b2World.store (world : b2World F) (handle : Nat) (b : b2Body F) : b2World F :=
  { world with bodies := world.bodies.set handle (some b) }

/-- The call `world.CreateBody(&bodyDef)` for a dynamic body at `position`: a new slot,
whose index is the returned pointer. -/
def b2World.CreateBody (world : b2World F) (position : b2Vec2 F) : Nat × b2World F :=
  (world.bodies.length,
   { world with
     bodies := world.bodies ++
       [some { position := position, linearVelocity := ⟨0, 0⟩, force := ⟨0, 0⟩,
               fixtures := [] }] })

/-- The call `body->CreateFixture(&fixtureDef)`. -/
def b2World.CreateFixture (world : b2World F) (handle : Nat) (fixture : b2Fixture F) :
    Except Fault (b2World F) := do
  let b ← world.body handle
  pure (world.store handle { b with fixtures := b.fixtures ++ [fixture] })

/-- The call `body->SetLinearVelocity(v)`. -/
def b2World.SetLinearVelocity (world : b2World F) (handle : Nat) (v : b2Vec2 F) :
    Except Fault (b2World F) := do
  let b ← world.body handle
  pure (world.store handle { b with linearVelocity := v })

/-- The call `body->GetPosition()`. -/
def b2World.GetPosition (world : b2World F) (handle : Nat) : Except Fault (b2Vec2 F) := do
  let b ← world.body handle
  pure b.position

/-- The call `body->ApplyForceToCenter(force, true)`: the force is added to the body's
accumulator. -/
def b2World.ApplyForceToCenter (world : b2World F) (handle : Nat) (force : b2Vec2 F) :
    Except Fault (b2World F) := do
  let b ← world.body handle
  pure (world.store handle
    { b with force := ⟨b.force.x + force.x, b.force.y + force.y⟩ })

/-- The call `world.DestroyBody(body)`: the slot is emptied and the handle recorded. -/
def b2World.DestroyBody (world : b2World F) (handle : Nat) : Except Fault (b2World F) := do
  let _ ← world.body handle
  pure { bodies := world.bodies.set handle none,
         destroyed := world.destroyed ++ [handle] }

/-! ## `applyGravity` -/

/-- Lines 68-72 of `applyGravity`: the vector `direction`, from the planet's render-space
position (its physics position times 30) to the sun. -/
def applyGravityDirection (planetPos : b2Vec2 F) (sunPosition : Vector2f F) : Vector2f F :=
  let planetPosition : Vector2f F := ⟨planetPos.x * 30, planetPos.y * 30⟩
  ⟨sunPosition.x - planetPosition.x, sunPosition.y - planetPosition.y⟩

/-- Lines 73-77 of `applyGravity`: the variable `distanceSquared` after the clamp. -/
def applyGravityDistanceSquared (planetPos : b2Vec2 F) (sunPosition : Vector2f F) : F :=
  let direction := applyGravityDirection planetPos sunPosition
  let distanceSquared := direction.x * direction.x + direction.y * direction.y
  if distanceSquared < 100 then 100 else distanceSquared

/-- Lines 68-86 of `applyGravity`: the vector `force`, computed from the body's
physics position `planetPos` and the sun's position. -/
def applyGravityForce (sqrt : F → F) (planetPos : b2Vec2 F) (sunPosition : Vector2f F) :
    Except Fault (b2Vec2 F) := do
  let direction := applyGravityDirection planetPos sunPosition
  let distanceSquared := applyGravityDistanceSquared planetPos sunPosition
  let gravityConstant : F := 5
  let sunMass : F := 5000
  let gravityStrength ← divide (gravityConstant * sunMass) distanceSquared
  let distance := sqrt distanceSquared
  let nx ← divide direction.x distance
  let ny ← divide direction.y distance
  pure ⟨nx * gravityStrength, ny * gravityStrength⟩

/-- The function `applyGravity(planet, sunPosition)`. -/
def applyGravity (sqrt : F → F) (world : b2World F) (planet : Planet F)
    (sunPosition : Vector2f F) : Except Fault (b2World F) := do
  let planetPos ← world.GetPosition planet.body
  let force ← applyGravityForce sqrt planetPos sunPosition
  world.ApplyForceToCenter planet.body force

/-! ## `spawnPlanet` -/

/-- The function `getRandomColor()`; the three arguments are the values returned by the
three calls of `rand()`. -/
def getRandomColor (rand0 rand1 rand2 : Nat) : Color :=
  ⟨rand0 % 256, rand1 % 256, rand2 % 256, 255⟩

/-- A default-constructed `Planet`: a white circle of radius zero at the origin and an
empty vertex array of points.  The pointer is set before it is used. -/
def Planet.default : Planet F :=
  { shape := { radius := 0, origin := ⟨0, 0⟩, fillColor := ⟨255, 255, 255, 255⟩,
               position := ⟨0, 0⟩ },
    trail := { primitiveType := .Points, vertices := [] },
    body := 0 }

/-- The function `spawnPlanet(position, world, sunPosition)`, acting on the world and on
the global vector `planets`.  Divisions by the constant `30.0f` are written `/`. -/
def spawnPlanet (sqrt : F → F) (rand0 rand1 rand2 : Nat) (position : Vector2f F)
    (world : b2World F) (sunPosition : Vector2f F) (planets : List (Planet F)) :
    Except Fault (b2World F × List (Planet F)) := do
  let planet : Planet F := Planet.default
  let randomColor := getRandomColor rand0 rand1 rand2
  -- SFML shape setup
  let planet := { planet with shape := { planet.shape with radius := 10 } }
  let planet := { planet with shape := { planet.shape with origin := ⟨10, 10⟩ } }
  let planet := { planet with shape := { planet.shape with fillColor := randomColor } }
  let planet := { planet with shape := { planet.shape with position := position } }
  -- Box2D body setup
  let created := world.CreateBody ⟨position.x / 30, position.y / 30⟩
  let planet := { planet with body := created.1 }
  let world := created.2
  let world ← world.CreateFixture planet.body
    { radius := 10 / 30, density := 1, friction := 0, restitution := 0 }
  -- initial tangential velocity
  let direction : Vector2f F := ⟨position.x - sunPosition.x, position.y - sunPosition.y⟩
  let distance := sqrt (direction.x * direction.x + direction.y * direction.y)
  let tangentX ← divide (-direction.y) distance
  let tangentY ← divide direction.x distance
  let tangent : Vector2f F := ⟨tangentX, tangentY⟩
  let gravityConstant : F := 100
  let sunMass : F := 10000
  let ratio ← divide (gravityConstant * sunMass) distance
  let orbitalSpeed := sqrt ratio
  let velocity : b2Vec2 F := ⟨tangent.x * orbitalSpeed / 30, tangent.y * orbitalSpeed / 30⟩
  let world ← world.SetLinearVelocity planet.body velocity
  -- trail setup
  let planet := { planet with trail := { planet.trail with primitiveType := .LineStrip } }
  pure (world, planets ++ [planet])

/-! ## `updatePlanets` -/

/-- The loop of `updatePlanets`, started at index `i`.  One unit of fuel is spent on
each evaluation of the loop condition. -/
def updatePlanetsLoop (sqrt : F → F) (sunPosition : Vector2f F) :
    Nat → Nat → b2World F → List (Planet F) → Except Fault (b2World F × List (Planet F))
  | 0, _, _, _ => .error .outOfFuel
  | fuel + 1, i, world, planets =>
    if h : i < planets.length then do
      let planet := planets[i]
      -- gravitational pull toward the sun
      let world ← applyGravity sqrt world planet sunPosition
      -- the planet's position in SFML
      let planetPos ← world.GetPosition planet.body
      let planet :=
        { planet with shape := { planet.shape with position := ⟨planetPos.x * 30, planetPos.y * 30⟩ } }
      -- trail point
      let planet :=
        { planet with
          trail := { planet.trail with
                     vertices := planet.trail.vertices ++
                       [⟨planet.shape.position, planet.shape.fillColor⟩] } }
      let planets := planets.set i planet
      -- destruction if too close to the sun
      let distance := sqrt ((sunPosition.x - planet.shape.position.x) ^ 2 +
        (sunPosition.y - planet.shape.position.y) ^ 2)
      if distance < 60 then do
        let world ← world.DestroyBody planet.body
        let planets := planets.eraseIdx i
        let i := (i + SIZE_MODULUS - 1) % SIZE_MODULUS
        updatePlanetsLoop sqrt sunPosition fuel ((i + 1) % SIZE_MODULUS) world planets
      else
        updatePlanetsLoop sqrt sunPosition fuel ((i + 1) % SIZE_MODULUS) world planets
    else
      .ok (world, planets)

/-- The function `updatePlanets(world, sunPosition, deltaTime)`, acting on the world and
on the global vector `planets`; `deltaTime` is not used by the body. -/
def updatePlanets (sqrt : F → F) (fuel : Nat) (world : b2World F) (sunPosition : Vector2f F)
    (_deltaTime : F) (planets : List (Planet F)) :
    Except Fault (b2World F × List (Planet F)) :=
  updatePlanetsLoop sqrt sunPosition fuel 0 world planets

/-! ## Vocabulary of the statements -/

/-- The render-space position of a body: its physics position times the scale factor. -/
def renderPosition (p : b2Vec2 F) : Vector2f F := ⟨p.x * 30, p.y * 30⟩

/-- The squared Euclidean distance of two render-space points. -/
def distanceSq (a b : Vector2f F) : F := (a.x - b.x) ^ 2 + (a.y - b.y) ^ 2

/-- The Euclidean length of a physics-space vector. -/
def magnitude (sqrt : F → F) (v : b2Vec2 F) : F := sqrt (v.x ^ 2 + v.y ^ 2)

/-- Lines 107-109 of `updatePlanets`: whether a body whose physics position is
`planetPos` is destroyed, that is whether its distance to the sun is below 60. -/
def tooClose (sqrt : F → F) (sunPosition : Vector2f F) (planetPos : b2Vec2 F) : Bool :=
  decide (sqrt ((sunPosition.x - (renderPosition planetPos).x) ^ 2 +
    (sunPosition.y - (renderPosition planetPos).y) ^ 2) < 60)

/-- Lines 100-104 of `updatePlanets`: the planet record after its shape has been moved to
the body's position and that position, with the fill colour, appended to the trail. -/
def trackedPlanet (planetPos : b2Vec2 F) (planet : Planet F) : Planet F :=
  { planet with
    shape := { planet.shape with position := renderPosition planetPos },
    trail := { planet.trail with
               vertices := planet.trail.vertices ++
                 [⟨renderPosition planetPos, planet.shape.fillColor⟩] } }

/-- The planets that one step keeps, in order, each tracked; `pos` gives the physics
position of the body behind a handle. -/
def survivors (sqrt : F → F) (sunPosition : Vector2f F) (pos : Nat → b2Vec2 F)
    (planets : List (Planet F)) : List (Planet F) :=
  (planets.filter (fun p => !tooClose sqrt sunPosition (pos p.body))).map
    (fun p => trackedPlanet (pos p.body) p)

/-- The handles of the planets that one step removes, in order. -/
def removedHandles (sqrt : F → F) (sunPosition : Vector2f F) (pos : Nat → b2Vec2 F)
    (planets : List (Planet F)) : List Nat :=
  (planets.filter (fun p => tooClose sqrt sunPosition (pos p.body))).map Planet.body

/-- The planet record that `spawnPlanet` builds: radius and origin 10, the drawn colour,
the spawn position, an empty line strip, and the new body's handle. -/
def spawnedPlanet (color : Color) (position : Vector2f F) (body : Nat) : Planet F :=
  { shape := { radius := 10, origin := ⟨10, 10⟩, fillColor := color, position := position },
    trail := { primitiveType := .LineStrip, vertices := [] },
    body := body }

/-- A world of four live bodies, used to instantiate the statements. With the sun at
`(420, 300)` their distances to it are 0, 30, 60 and 180. -/
def exampleWorld : b2World F :=
  { bodies := [some ⟨⟨14, 10⟩, ⟨0, 0⟩, ⟨0, 0⟩, []⟩, some ⟨⟨13, 10⟩, ⟨0, 0⟩, ⟨0, 0⟩, []⟩,
               some ⟨⟨12, 10⟩, ⟨0, 0⟩, ⟨0, 0⟩, []⟩, some ⟨⟨20, 10⟩, ⟨0, 0⟩, ⟨0, 0⟩, []⟩],
    destroyed := [] }

/-- The physics positions of the bodies of `exampleWorld`, by handle. -/
def examplePositions : Nat → b2Vec2 F
  | 0 => ⟨14, 10⟩
  | 1 => ⟨13, 10⟩
  | 2 => ⟨12, 10⟩
  | _ => ⟨20, 10⟩

/-- A registry of four planets over `exampleWorld`, in handle order. -/
def examplePlanets : List (Planet F) :=
  [spawnedPlanet ⟨1, 2, 3, 255⟩ ⟨420, 300⟩ 0, spawnedPlanet ⟨4, 5, 6, 255⟩ ⟨390, 300⟩ 1,
   spawnedPlanet ⟨7, 8, 9, 255⟩ ⟨360, 300⟩ 2, spawnedPlanet ⟨10, 11, 12, 255⟩ ⟨600, 300⟩ 3]

/-- The force as the specification words it: `normalize(d) * strength` with `d = A - P`,
`normalize(d) = d / |d|` and `strength = (G * M) / max(|d|^2, 100)`. -/
def specComputeForce (sqrt : F → F) (bodyPosition attractorPosition : Vector2f F) : b2Vec2 F :=
  let dx := attractorPosition.x - bodyPosition.x
  let dy := attractorPosition.y - bodyPosition.y
  let norm := sqrt (dx ^ 2 + dy ^ 2)
  let strength := (5 * 5000) / max (dx ^ 2 + dy ^ 2) 100
  ⟨dx / norm * strength, dy / norm * strength⟩

end Operations

/-! ## Binary32 arithmetic -/

/-- A finite binary32 value (a C++ `float` that is neither an infinity nor a NaN), as the
rational number it denotes.  The sign of zero is not kept. -/
structure Binary32 where
  val : ℚ
  deriving DecidableEq

namespace Binary32

/-- The number of halvings that bring `n` below 2, at most `fuel` of them. -/
def log2Fuel : Nat → Nat → Nat
  | 0, _ => 0
  | fuel + 1, n => if 2 ≤ n then log2Fuel fuel (n / 2) + 1 else 0

/-- The binary logarithm of a positive natural number, rounded down. -/
def log2 (n : Nat) : Nat := log2Fuel n n

/-- The exponent `e` with `2 ^ e ≤ |q| < 2 ^ (e + 1)`, for `q ≠ 0`. -/
def exponent (q : ℚ) : ℤ :=
  let e : ℤ := (log2 q.num.natAbs : ℤ) - (log2 q.den : ℤ)
  if (2 : ℚ) ^ e ≤ |q| then e else e - 1

/-- The spacing of the binary32 values in the binade of exponent `e`: 24 significant
bits, and the spacing of the subnormal values below `2 ^ (-126)`. -/
def spacing (e : ℤ) : ℚ := (2 : ℚ) ^ (max e (-126) - 23)

/-- The nearest integer to `r`, the even one of the two when `r` is half-way. -/
def roundHalfEven (r : ℚ) : ℤ :=
  let f := ⌊r⌋
  if r - f < 1 / 2 then f
  else if 1 / 2 < r - f then f + 1
  else if f % 2 = 0 then f else f + 1

/-- Rounding of an exact result to binary32: to nearest, ties to even.  Overflow to an
infinity (magnitudes of `2 ^ 128` and more) is not modelled. -/
def round (q : ℚ) : Binary32 :=
  if q = 0 then ⟨0⟩
  else ⟨roundHalfEven (q / spacing (exponent q)) * spacing (exponent q)⟩

/-- The largest `r` of the form `acc` plus bits below `2 ^ bits` with `r * r ≤ n`. -/
def isqrtBits (n : Nat) : Nat → Nat → Nat
  | 0, acc => acc
  | bits + 1, acc =>
    if (acc + 2 ^ bits) * (acc + 2 ^ bits) ≤ n then isqrtBits n bits (acc + 2 ^ bits)
    else isqrtBits n bits acc

/-- The integer square root, rounded down. -/
def isqrt (n : Nat) : Nat := isqrtBits n (log2 n / 2 + 1) 0

/-- The function `std::sqrt` on `float`: the binary32 value nearest to the exact root,
ties to even.  The program only takes roots of sums of squares and of quotients of
non-negative values; a negative argument, whose root is a NaN, is given the value 0. -/
def sqrt (a : Binary32) : Binary32 :=
  if a.val ≤ 0 then ⟨0⟩
  else
    let u := spacing (Int.fdiv (exponent a.val) 2)
    let s := a.val / (u * u)
    let m : ℤ := isqrt ⌊s⌋.toNat
    let half : ℚ := (m : ℚ) + 1 / 2
    if s < half * half then ⟨m * u⟩
    else if half * half < s then ⟨(m + 1) * u⟩
    else if m % 2 = 0 then ⟨m * u⟩ else ⟨(m + 1) * u⟩

end Binary32

instance : Zero Binary32 := ⟨⟨0⟩⟩

instance : One Binary32 := ⟨⟨1⟩⟩

/-- A literal such as `30.0f`. -/
instance : NatCast Binary32 := ⟨fun n => Binary32.round n⟩

instance : Add Binary32 := ⟨fun a b => Binary32.round (a.val + b.val)⟩

instance : Sub Binary32 := ⟨fun a b => Binary32.round (a.val - b.val)⟩

instance : Mul Binary32 := ⟨fun a b => Binary32.round (a.val * b.val)⟩

instance : Div Binary32 := ⟨fun a b => Binary32.round (a.val / b.val)⟩

instance : Neg Binary32 := ⟨fun a => ⟨-a.val⟩⟩

/-- The power, rounded once.  The program's only power is `std::pow(x, 2)` on lines
107-108, which C++ evaluates in `double` before the root is narrowed to `float`; here
the square, the sum and the root are each rounded to binary32.  The two can differ in
the last place of the distance, which matters only for a distance next to 60. -/
instance : Pow Binary32 ℕ := ⟨fun a n => Binary32.round (a.val ^ n)⟩

instance : LT Binary32 := ⟨fun a b => a.val < b.val⟩

instance : DecidableRel (LT.lt : Binary32 → Binary32 → Prop) :=
  fun a b => inferInstanceAs (Decidable (a.val < b.val))

/-! ## Real arithmetic: `applyGravity` -/

/-- A division by a non-zero divisor has the value of the quotient. -/
theorem divide_ok {F : Type} [LinearOrderedField F] (a b : F) (h : b ≠ 0) :
    divide a b = .ok (a / b) := by
  simp [divide, h]

/-- After the clamp, `distanceSquared` is at least 100. -/
theorem distanceSquared_clamped_ge (planetPos : b2Vec2 ℝ) (sun : Vector2f ℝ) :
    100 ≤ applyGravityDistanceSquared planetPos sun := by
  unfold applyGravityDistanceSquared
  simp only
  split_ifs with h
  · exact le_refl _
  · exact not_lt.mp h

/-- The normalising distance, the root of the clamped value, is at least 10. -/
theorem sqrt_distanceSquared_clamped_ge (planetPos : b2Vec2 ℝ) (sun : Vector2f ℝ) :
    10 ≤ Real.sqrt (applyGravityDistanceSquared planetPos sun) := by
  have h := distanceSquared_clamped_ge planetPos sun
  rw [Real.le_sqrt' (by norm_num)]
  norm_num
  exact h

/-- The direction vector has squared length `distanceSq sun P`. -/
theorem direction_sq (planetPos : b2Vec2 ℝ) (sun : Vector2f ℝ) :
    (applyGravityDirection planetPos sun).x * (applyGravityDirection planetPos sun).x +
      (applyGravityDirection planetPos sun).y * (applyGravityDirection planetPos sun).y =
      distanceSq sun (renderPosition planetPos) := by
  simp only [applyGravityDirection, distanceSq, renderPosition]
  ring

/-- At or beyond the clamp radius the clamp leaves `distanceSquared` unchanged. -/
theorem distanceSquared_of_far (planetPos : b2Vec2 ℝ) (sun : Vector2f ℝ)
    (h : 100 ≤ distanceSq sun (renderPosition planetPos)) :
    applyGravityDistanceSquared planetPos sun = distanceSq sun (renderPosition planetPos) := by
  unfold applyGravityDistanceSquared
  simp only
  rw [direction_sq, if_neg (not_lt.mpr h)]

/-- Inside the clamp radius `distanceSquared` becomes 100. -/
theorem distanceSquared_of_near (planetPos : b2Vec2 ℝ) (sun : Vector2f ℝ)
    (h : distanceSq sun (renderPosition planetPos) < 100) :
    applyGravityDistanceSquared planetPos sun = 100 := by
  unfold applyGravityDistanceSquared
  simp only
  rw [direction_sq, if_pos h]

/-- The value of `force` in closed form: no division fails. -/
theorem applyGravityForce_ok (planetPos : b2Vec2 ℝ) (sun : Vector2f ℝ) :
    applyGravityForce Real.sqrt planetPos sun =
      .ok ⟨(applyGravityDirection planetPos sun).x /
              Real.sqrt (applyGravityDistanceSquared planetPos sun) *
              (5 * 5000 / applyGravityDistanceSquared planetPos sun),
           (applyGravityDirection planetPos sun).y /
              Real.sqrt (applyGravityDistanceSquared planetPos sun) *
              (5 * 5000 / applyGravityDistanceSquared planetPos sun)⟩ := by
  have h1 := distanceSquared_clamped_ge planetPos sun
  have h2 := sqrt_distanceSquared_clamped_ge planetPos sun
  have h1' : applyGravityDistanceSquared planetPos sun ≠ 0 := by linarith
  have h2' : Real.sqrt (applyGravityDistanceSquared planetPos sun) ≠ 0 := by linarith
  unfold applyGravityForce
  simp only [divide_ok _ _ h1', divide_ok _ _ h2']
  rfl

/-- The squared length of `dx / s * g, dy / s * g` when `s` is the root of `c`. -/
theorem scaled_sq (dx dy c g : ℝ) (hc : 0 < c) :
    (dx / Real.sqrt c * g) ^ 2 + (dy / Real.sqrt c * g) ^ 2 =
      (dx * dx + dy * dy) / c * g ^ 2 := by
  have hs : Real.sqrt c ^ 2 = c := Real.sq_sqrt hc.le
  have hs0 : Real.sqrt c ≠ 0 := (Real.sqrt_pos.mpr hc).ne'
  have : (dx / Real.sqrt c * g) ^ 2 + (dy / Real.sqrt c * g) ^ 2 =
      (dx * dx + dy * dy) / (Real.sqrt c ^ 2) * g ^ 2 := by
    field_simp
    ring
  rw [this, hs]

/-- On a live body `applyGravity` is the call of `ApplyForceToCenter` with `force`. -/
theorem applyGravity_eq (world : b2World ℝ) (planet : Planet ℝ) (sun : Vector2f ℝ)
    (b : b2Body ℝ) (force : b2Vec2 ℝ) (hb : world.body planet.body = .ok b)
    (hf : applyGravityForce Real.sqrt b.position sun = .ok force) :
    applyGravity Real.sqrt world planet sun = world.ApplyForceToCenter planet.body force := by
  unfold applyGravity b2World.GetPosition
  rw [hb]
  show (applyGravityForce Real.sqrt b.position sun >>= _) = _
  rw [hf]
  rfl

/-- C1. Whenever the body's render-space position `P` (the position of a live body,
times 30) satisfies `|A - P|^2 ≥ 100`, `applyGravity` hands `ApplyForceToCenter` the
vector `force` of `applyGravityForce`, and its length is `25000 / |A - P|^2`, that is
`(5 * 5000) / |A - P|^2`. -/
theorem applyGravity_force_magnitude (world : b2World ℝ) (planet : Planet ℝ)
    (sunPosition : Vector2f ℝ) (b : b2Body ℝ)
    (hb : world.body planet.body = .ok b)
    (hfar : 100 ≤ distanceSq sunPosition (renderPosition b.position)) :
    ∃ force : b2Vec2 ℝ,
      applyGravityForce Real.sqrt b.position sunPosition = .ok force ∧
      applyGravity Real.sqrt world planet sunPosition =
        world.ApplyForceToCenter planet.body force ∧
      magnitude Real.sqrt force =
        (5 * 5000) / distanceSq sunPosition (renderPosition b.position) ∧
      magnitude Real.sqrt force =
        25000 / distanceSq sunPosition (renderPosition b.position) := by
  refine ⟨_, applyGravityForce_ok b.position sunPosition,
    applyGravity_eq world planet sunPosition b _ hb (applyGravityForce_ok _ _), ?_⟩
  have hc := distanceSquared_of_far b.position sunPosition hfar
  have hpos : 0 < distanceSq sunPosition (renderPosition b.position) := by linarith
  have key : magnitude Real.sqrt
      ⟨(applyGravityDirection b.position sunPosition).x /
              Real.sqrt (applyGravityDistanceSquared b.position sunPosition) *
              (5 * 5000 / applyGravityDistanceSquared b.position sunPosition),
           (applyGravityDirection b.position sunPosition).y /
              Real.sqrt (applyGravityDistanceSquared b.position sunPosition) *
              (5 * 5000 / applyGravityDistanceSquared b.position sunPosition)⟩ =
      (5 * 5000) / distanceSq sunPosition (renderPosition b.position) := by
    unfold magnitude
    simp only
    rw [hc, scaled_sq _ _ _ _ hpos, direction_sq, div_self hpos.ne', one_mul]
    exact Real.sqrt_sq (by positivity)
  refine ⟨key, ?_⟩
  rw [key]
  norm_num

/-- The inverse-square statement for a body at `(30, 0)` and the sun at `(60, 40)`,
at distance 50. -/
theorem applyGravity_force_magnitude_witness :
    100 ≤ distanceSq (⟨60, 40⟩ : Vector2f ℝ) (renderPosition ⟨1, 0⟩) ∧
    ∃ force : b2Vec2 ℝ,
      applyGravityForce Real.sqrt (⟨1, 0⟩ : b2Vec2 ℝ) ⟨60, 40⟩ = .ok force ∧
      applyGravity Real.sqrt
          (⟨[some ⟨⟨1, 0⟩, ⟨0, 0⟩, ⟨0, 0⟩, []⟩], []⟩ : b2World ℝ)
          ⟨⟨10, ⟨10, 10⟩, ⟨1, 2, 3, 255⟩, ⟨30, 0⟩⟩, ⟨.LineStrip, []⟩, 0⟩ ⟨60, 40⟩ =
        b2World.ApplyForceToCenter
          (⟨[some ⟨⟨1, 0⟩, ⟨0, 0⟩, ⟨0, 0⟩, []⟩], []⟩ : b2World ℝ) 0 force ∧
      magnitude Real.sqrt force =
        (5 * 5000) / distanceSq (⟨60, 40⟩ : Vector2f ℝ) (renderPosition ⟨1, 0⟩) ∧
      magnitude Real.sqrt force =
        25000 / distanceSq (⟨60, 40⟩ : Vector2f ℝ) (renderPosition ⟨1, 0⟩) :=
  ⟨by norm_num [distanceSq, renderPosition],
   applyGravity_force_magnitude
     (⟨[some ⟨⟨1, 0⟩, ⟨0, 0⟩, ⟨0, 0⟩, []⟩], []⟩ : b2World ℝ)
     ⟨⟨10, ⟨10, 10⟩, ⟨1, 2, 3, 255⟩, ⟨30, 0⟩⟩, ⟨.LineStrip, []⟩, 0⟩ ⟨60, 40⟩
     ⟨⟨1, 0⟩, ⟨0, 0⟩, ⟨0, 0⟩, []⟩ rfl (by norm_num [distanceSq, renderPosition])⟩

/-- Two different points are at a positive squared distance. -/
theorem distanceSq_pos_of_ne (a b : Vector2f ℝ) (h : a ≠ b) : 0 < distanceSq a b := by
  unfold distanceSq
  rcases a with ⟨ax, ay⟩
  rcases b with ⟨bx, bY⟩
  simp only
  by_contra hcon
  have h0 : (ax - bx) ^ 2 + (ay - bY) ^ 2 = 0 :=
    le_antisymm (not_lt.mp hcon) (by positivity)
  have hx : ax - bx = 0 := by nlinarith [sq_nonneg (ax - bx), sq_nonneg (ay - bY)]
  have hy : ay - bY = 0 := by nlinarith [sq_nonneg (ax - bx), sq_nonneg (ay - bY)]
  apply h
  rw [sub_eq_zero.mp hx, sub_eq_zero.mp hy]

/-- C2. For a live body whose render-space position `P` differs from the sun's position
`A`, at any distance, the force handed to `ApplyForceToCenter` has a strictly positive
dot product with `A - P`. -/
theorem applyGravity_force_toward_sun (world : b2World ℝ) (planet : Planet ℝ)
    (sunPosition : Vector2f ℝ) (b : b2Body ℝ)
    (hb : world.body planet.body = .ok b)
    (hne : renderPosition b.position ≠ sunPosition) :
    ∃ force : b2Vec2 ℝ,
      applyGravityForce Real.sqrt b.position sunPosition = .ok force ∧
      applyGravity Real.sqrt world planet sunPosition =
        world.ApplyForceToCenter planet.body force ∧
      0 < force.x * (sunPosition.x - (renderPosition b.position).x) +
          force.y * (sunPosition.y - (renderPosition b.position).y) := by
  refine ⟨_, applyGravityForce_ok b.position sunPosition,
    applyGravity_eq world planet sunPosition b _ hb (applyGravityForce_ok _ _), ?_⟩
  have hd := distanceSq_pos_of_ne _ _ (Ne.symm hne)
  have h1 := distanceSquared_clamped_ge b.position sunPosition
  have h2 := sqrt_distanceSquared_clamped_ge b.position sunPosition
  have hc : 0 < applyGravityDistanceSquared b.position sunPosition := by linarith
  have hs : 0 < Real.sqrt (applyGravityDistanceSquared b.position sunPosition) := by linarith
  have e : (applyGravityDirection b.position sunPosition).x /
              Real.sqrt (applyGravityDistanceSquared b.position sunPosition) *
              (5 * 5000 / applyGravityDistanceSquared b.position sunPosition) *
            (sunPosition.x - (renderPosition b.position).x) +
          (applyGravityDirection b.position sunPosition).y /
              Real.sqrt (applyGravityDistanceSquared b.position sunPosition) *
              (5 * 5000 / applyGravityDistanceSquared b.position sunPosition) *
            (sunPosition.y - (renderPosition b.position).y) =
        distanceSq sunPosition (renderPosition b.position) /
          Real.sqrt (applyGravityDistanceSquared b.position sunPosition) *
          (5 * 5000 / applyGravityDistanceSquared b.position sunPosition) := by
    simp only [applyGravityDirection, distanceSq, renderPosition]
    ring
  simp only
  rw [e]
  positivity

/-- The direction statement for a body at `(30, 0)` and the sun at `(33, 4)`, at distance
5, inside the clamp radius. -/
theorem applyGravity_force_toward_sun_witness :
    renderPosition (⟨1, 0⟩ : b2Vec2 ℝ) ≠ ⟨33, 4⟩ ∧
    ∃ force : b2Vec2 ℝ,
      applyGravityForce Real.sqrt (⟨1, 0⟩ : b2Vec2 ℝ) ⟨33, 4⟩ = .ok force ∧
      applyGravity Real.sqrt
          (⟨[some ⟨⟨1, 0⟩, ⟨0, 0⟩, ⟨0, 0⟩, []⟩], []⟩ : b2World ℝ)
          ⟨⟨10, ⟨10, 10⟩, ⟨1, 2, 3, 255⟩, ⟨30, 0⟩⟩, ⟨.LineStrip, []⟩, 0⟩ ⟨33, 4⟩ =
        b2World.ApplyForceToCenter
          (⟨[some ⟨⟨1, 0⟩, ⟨0, 0⟩, ⟨0, 0⟩, []⟩], []⟩ : b2World ℝ) 0 force ∧
      0 < force.x * ((33 : ℝ) - (renderPosition (⟨1, 0⟩ : b2Vec2 ℝ)).x) +
          force.y * ((4 : ℝ) - (renderPosition (⟨1, 0⟩ : b2Vec2 ℝ)).y) :=
  ⟨by simp [renderPosition],
   applyGravity_force_toward_sun
     (⟨[some ⟨⟨1, 0⟩, ⟨0, 0⟩, ⟨0, 0⟩, []⟩], []⟩ : b2World ℝ)
     ⟨⟨10, ⟨10, 10⟩, ⟨1, 2, 3, 255⟩, ⟨30, 0⟩⟩, ⟨.LineStrip, []⟩, 0⟩ ⟨33, 4⟩
     ⟨⟨1, 0⟩, ⟨0, 0⟩, ⟨0, 0⟩, []⟩ rfl (by simp [renderPosition])⟩

/-- The root of the clamp value. -/
theorem sqrt_hundred : Real.sqrt 100 = 10 := by
  rw [show (100 : ℝ) = 10 ^ 2 by norm_num]
  exact Real.sqrt_sq (by norm_num)

/-- C3, refuted as stated. With the body at the origin and the sun at `(3, 4)` the
distance is 5, inside the clamp radius. The code computes the force `(75, 100)`, of
length 125, not 250; the specification's `normalize(d) * strength` is `(150, 200)`. -/
theorem applyGravity_force_not_normalized :
    renderPosition (⟨0, 0⟩ : b2Vec2 ℝ) ≠ ⟨3, 4⟩ ∧
    0 < distanceSq (⟨3, 4⟩ : Vector2f ℝ) (renderPosition ⟨0, 0⟩) ∧
    distanceSq (⟨3, 4⟩ : Vector2f ℝ) (renderPosition ⟨0, 0⟩) < 100 ∧
    applyGravityForce Real.sqrt (⟨0, 0⟩ : b2Vec2 ℝ) ⟨3, 4⟩ = .ok ⟨75, 100⟩ ∧
    magnitude Real.sqrt (⟨75, 100⟩ : b2Vec2 ℝ) = 125 ∧
    magnitude Real.sqrt (⟨75, 100⟩ : b2Vec2 ℝ) ≠ 250 ∧
    specComputeForce Real.sqrt (renderPosition (⟨0, 0⟩ : b2Vec2 ℝ)) ⟨3, 4⟩ = ⟨150, 200⟩ ∧
    (⟨75, 100⟩ : b2Vec2 ℝ) ≠
      specComputeForce Real.sqrt (renderPosition (⟨0, 0⟩ : b2Vec2 ℝ)) ⟨3, 4⟩ := by
  have hmag : magnitude Real.sqrt (⟨75, 100⟩ : b2Vec2 ℝ) = 125 := by
    unfold magnitude
    rw [show ((75 : ℝ) ^ 2 + 100 ^ 2) = 125 ^ 2 by norm_num]
    exact Real.sqrt_sq (by norm_num)
  have hspec : specComputeForce Real.sqrt (renderPosition (⟨0, 0⟩ : b2Vec2 ℝ)) ⟨3, 4⟩ =
      ⟨150, 200⟩ := by
    have h5 : Real.sqrt 25 = 5 := by
      rw [show (25 : ℝ) = 5 ^ 2 by norm_num]
      exact Real.sqrt_sq (by norm_num)
    simp only [specComputeForce, renderPosition]
    norm_num [h5]
  have hforce : applyGravityForce Real.sqrt (⟨0, 0⟩ : b2Vec2 ℝ) ⟨3, 4⟩ = .ok ⟨75, 100⟩ := by
    have hnear : distanceSq (⟨3, 4⟩ : Vector2f ℝ) (renderPosition ⟨0, 0⟩) < 100 := by
      norm_num [distanceSq, renderPosition]
    rw [applyGravityForce_ok, distanceSquared_of_near _ _ hnear, sqrt_hundred]
    simp only [applyGravityDirection]
    norm_num
  refine ⟨by simp [renderPosition], by norm_num [distanceSq, renderPosition],
    by norm_num [distanceSq, renderPosition], hforce, hmag, ?_, hspec, ?_⟩
  · rw [hmag]
    norm_num
  · rw [hspec]
    intro h
    have := congrArg b2Vec2.x h
    norm_num at this

/-- C3, amended. For every body position `P` and sun position `A`, with `d = A - P`
and `c = max(|d|^2, 100)`, the force is `d / sqrt c * ((5 * 5000) / c)`: the clamp
enters the normalising distance as well as the strength. It follows that for
`|d|^2 ≥ 100` the force is the specification's `normalize(d) * strength`, and that for
`|d|^2 < 100` it is `d / 10 * 250 = 25 * d`, of length `25 * |d|`, less than 250. -/
theorem applyGravity_force_clamped (planetPos : b2Vec2 ℝ) (sunPosition : Vector2f ℝ) :
    ∃ force : b2Vec2 ℝ,
      applyGravityForce Real.sqrt planetPos sunPosition = .ok force ∧
      force.x = (sunPosition.x - (renderPosition planetPos).x) /
          Real.sqrt (max (distanceSq sunPosition (renderPosition planetPos)) 100) *
          ((5 * 5000) / max (distanceSq sunPosition (renderPosition planetPos)) 100) ∧
      force.y = (sunPosition.y - (renderPosition planetPos).y) /
          Real.sqrt (max (distanceSq sunPosition (renderPosition planetPos)) 100) *
          ((5 * 5000) / max (distanceSq sunPosition (renderPosition planetPos)) 100) ∧
      (100 ≤ distanceSq sunPosition (renderPosition planetPos) →
        force = specComputeForce Real.sqrt (renderPosition planetPos) sunPosition) ∧
      (distanceSq sunPosition (renderPosition planetPos) < 100 →
        force.x = 25 * (sunPosition.x - (renderPosition planetPos).x) ∧
        force.y = 25 * (sunPosition.y - (renderPosition planetPos).y) ∧
        magnitude Real.sqrt force =
          25 * Real.sqrt (distanceSq sunPosition (renderPosition planetPos)) ∧
        magnitude Real.sqrt force < 250) := by
  refine ⟨_, applyGravityForce_ok planetPos sunPosition, ?_, ?_, ?_, ?_⟩
  · rcases le_or_lt 100 (distanceSq sunPosition (renderPosition planetPos)) with h | h
    · rw [distanceSquared_of_far _ _ h, max_eq_left h]
      rfl
    · rw [distanceSquared_of_near _ _ h, max_eq_right h.le]
      rfl
  · rcases le_or_lt 100 (distanceSq sunPosition (renderPosition planetPos)) with h | h
    · rw [distanceSquared_of_far _ _ h, max_eq_left h]
      rfl
    · rw [distanceSquared_of_near _ _ h, max_eq_right h.le]
      rfl
  · intro h
    rw [distanceSquared_of_far _ _ h]
    have hm : max ((sunPosition.x - (renderPosition planetPos).x) ^ 2 +
        (sunPosition.y - (renderPosition planetPos).y) ^ 2) 100 =
        (sunPosition.x - (renderPosition planetPos).x) ^ 2 +
        (sunPosition.y - (renderPosition planetPos).y) ^ 2 := max_eq_left h
    simp only [specComputeForce, hm]
    rfl
  · intro h
    rw [distanceSquared_of_near _ _ h, sqrt_hundred]
    have hx : (applyGravityDirection planetPos sunPosition).x / 10 * (5 * 5000 / 100) =
        25 * (sunPosition.x - (renderPosition planetPos).x) := by
      simp only [applyGravityDirection, renderPosition]
      ring
    have hy : (applyGravityDirection planetPos sunPosition).y / 10 * (5 * 5000 / 100) =
        25 * (sunPosition.y - (renderPosition planetPos).y) := by
      simp only [applyGravityDirection, renderPosition]
      ring
    have hmag : magnitude Real.sqrt
        (⟨(applyGravityDirection planetPos sunPosition).x / 10 * (5 * 5000 / 100),
          (applyGravityDirection planetPos sunPosition).y / 10 * (5 * 5000 / 100)⟩ :
          b2Vec2 ℝ) =
        25 * Real.sqrt (distanceSq sunPosition (renderPosition planetPos)) := by
      unfold magnitude
      simp only
      rw [hx, hy]
      have e : (25 * (sunPosition.x - (renderPosition planetPos).x)) ^ 2 +
          (25 * (sunPosition.y - (renderPosition planetPos).y)) ^ 2 =
          25 ^ 2 * distanceSq sunPosition (renderPosition planetPos) := by
        unfold distanceSq
        ring
      rw [e, Real.sqrt_mul (by norm_num), Real.sqrt_sq (by norm_num)]
    refine ⟨hx, hy, hmag, ?_⟩
    rw [hmag]
    have hlt : Real.sqrt (distanceSq sunPosition (renderPosition planetPos)) < 10 := by
      rw [← sqrt_hundred]
      exact Real.sqrt_lt_sqrt (by unfold distanceSq; positivity) h
    linarith

/-- C10. For every body position and sun position, equal or not, the clamped squared
distance is at least 100 and its root at least 10, so the two divisors of
`applyGravity` are non-zero; the force is defined, has length at most 250, and is the
zero vector when the body is on the sun. -/
theorem applyGravity_force_defined (planetPos : b2Vec2 ℝ) (sunPosition : Vector2f ℝ) :
    100 ≤ applyGravityDistanceSquared planetPos sunPosition ∧
    applyGravityDistanceSquared planetPos sunPosition ≠ 0 ∧
    10 ≤ Real.sqrt (applyGravityDistanceSquared planetPos sunPosition) ∧
    Real.sqrt (applyGravityDistanceSquared planetPos sunPosition) ≠ 0 ∧
    (∃ force : b2Vec2 ℝ,
      applyGravityForce Real.sqrt planetPos sunPosition = .ok force ∧
      magnitude Real.sqrt force ≤ 250 ∧ 250 = (5 * 5000 : ℝ) / 100) ∧
    applyGravityForce Real.sqrt planetPos (renderPosition planetPos) = .ok ⟨0, 0⟩ := by
  have h1 := distanceSquared_clamped_ge planetPos sunPosition
  have h2 := sqrt_distanceSquared_clamped_ge planetPos sunPosition
  refine ⟨h1, by linarith, h2, by linarith, ⟨_, applyGravityForce_ok _ _, ?_, by norm_num⟩, ?_⟩
  · have hc : 0 < applyGravityDistanceSquared planetPos sunPosition := by linarith
    have hle : (applyGravityDirection planetPos sunPosition).x *
          (applyGravityDirection planetPos sunPosition).x +
        (applyGravityDirection planetPos sunPosition).y *
          (applyGravityDirection planetPos sunPosition).y ≤
        applyGravityDistanceSquared planetPos sunPosition := by
      rw [direction_sq]
      rcases le_or_lt 100 (distanceSq sunPosition (renderPosition planetPos)) with h | h
      · rw [distanceSquared_of_far _ _ h]
      · rw [distanceSquared_of_near _ _ h]
        exact h.le
    unfold magnitude
    simp only
    rw [scaled_sq _ _ _ _ hc]
    rw [show (250 : ℝ) = Real.sqrt (250 ^ 2) from (Real.sqrt_sq (by norm_num)).symm]
    apply Real.sqrt_le_sqrt
    have hg : 5 * 5000 / applyGravityDistanceSquared planetPos sunPosition ≤ 250 := by
      rw [div_le_iff₀ hc]
      linarith
    have hg0 : 0 ≤ 5 * 5000 / applyGravityDistanceSquared planetPos sunPosition := by
      positivity
    have hr : ((applyGravityDirection planetPos sunPosition).x *
          (applyGravityDirection planetPos sunPosition).x +
        (applyGravityDirection planetPos sunPosition).y *
          (applyGravityDirection planetPos sunPosition).y) /
        applyGravityDistanceSquared planetPos sunPosition ≤ 1 := by
      rw [div_le_one hc]
      exact hle
    have hr0 : 0 ≤ ((applyGravityDirection planetPos sunPosition).x *
          (applyGravityDirection planetPos sunPosition).x +
        (applyGravityDirection planetPos sunPosition).y *
          (applyGravityDirection planetPos sunPosition).y) /
        applyGravityDistanceSquared planetPos sunPosition := by
      apply div_nonneg _ hc.le
      nlinarith [mul_self_nonneg (applyGravityDirection planetPos sunPosition).x,
        mul_self_nonneg (applyGravityDirection planetPos sunPosition).y]
    calc _ ≤ 1 * (5 * 5000 / applyGravityDistanceSquared planetPos sunPosition) ^ 2 :=
          mul_le_mul_of_nonneg_right hr (by positivity)
      _ ≤ 250 ^ 2 := by
          rw [one_mul]
          exact pow_le_pow_left₀ hg0 hg 2
  · rw [applyGravityForce_ok]
    have hx : (applyGravityDirection planetPos (renderPosition planetPos)).x = 0 := by
      simp [applyGravityDirection, renderPosition]
    have hy : (applyGravityDirection planetPos (renderPosition planetPos)).y = 0 := by
      simp [applyGravityDirection, renderPosition]
    rw [hx, hy]
    simp

/-! ## The engine boundary -/

/-- Writing the last slot of a table. -/
theorem set_length_append {α : Type} (l : List α) (a b : α) :
    (l ++ [a]).set l.length b = l ++ [b] := by
  induction l with
  | nil => rfl
  | cons x xs ih => simp [List.set, ih]

/-- Reading the last slot of a table. -/
theorem getElem?_length_append {α : Type} (l : List α) (a : α) :
    (l ++ [a])[l.length]? = some a := by
  induction l with
  | nil => rfl
  | cons x xs ih => simp

/-- The body just created is live and at rest at the requested position. -/
theorem body_CreateBody {F : Type} [LinearOrderedField F] (world : b2World F) (position : b2Vec2 F) :
    (world.CreateBody position).2.body (world.CreateBody position).1 =
      .ok { position := position, linearVelocity := ⟨0, 0⟩, force := ⟨0, 0⟩, fixtures := [] } := by
  simp only [b2World.CreateBody, b2World.body, getElem?_length_append]

/-- Overwriting the body just created. -/
theorem store_CreateBody {F : Type} [LinearOrderedField F] (world : b2World F) (position : b2Vec2 F) (b : b2Body F) :
    (world.CreateBody position).2.store (world.CreateBody position).1 b =
      { bodies := world.bodies ++ [some b], destroyed := world.destroyed } := by
  simp only [b2World.CreateBody, b2World.store, set_length_append]

/-- The body in the last slot is live. -/
theorem body_append {F : Type} (world : b2World F) (b : b2Body F) :
    b2World.body { bodies := world.bodies ++ [some b], destroyed := world.destroyed }
      world.bodies.length = .ok b := by
  simp only [b2World.body, getElem?_length_append]

/-- Overwriting the body in the last slot. -/
theorem store_append {F : Type} (world : b2World F) (b c : b2Body F) :
    b2World.store { bodies := world.bodies ++ [some b], destroyed := world.destroyed }
      world.bodies.length c =
      { bodies := world.bodies ++ [some c], destroyed := world.destroyed } := by
  simp only [b2World.store, set_length_append]

/-! ## Real arithmetic: `spawnPlanet` -/

/-- The planet record that `spawnPlanet` appends. -/
theorem spawnPlanet_ok (rand0 rand1 rand2 : Nat) (position : Vector2f ℝ) (world : b2World ℝ)
    (sunPosition : Vector2f ℝ) (planets : List (Planet ℝ))
    (hd : Real.sqrt ((position.x - sunPosition.x) * (position.x - sunPosition.x) +
      (position.y - sunPosition.y) * (position.y - sunPosition.y)) ≠ 0) :
    spawnPlanet Real.sqrt rand0 rand1 rand2 position world sunPosition planets =
      .ok ({ bodies := world.bodies ++
              [some { position := ⟨position.x / 30, position.y / 30⟩,
                      linearVelocity :=
                        ⟨-(position.y - sunPosition.y) /
                            Real.sqrt ((position.x - sunPosition.x) * (position.x - sunPosition.x) +
                              (position.y - sunPosition.y) * (position.y - sunPosition.y)) *
                            Real.sqrt (100 * 10000 /
                              Real.sqrt ((position.x - sunPosition.x) * (position.x - sunPosition.x) +
                                (position.y - sunPosition.y) * (position.y - sunPosition.y))) / 30,
                          (position.x - sunPosition.x) /
                            Real.sqrt ((position.x - sunPosition.x) * (position.x - sunPosition.x) +
                              (position.y - sunPosition.y) * (position.y - sunPosition.y)) *
                            Real.sqrt (100 * 10000 /
                              Real.sqrt ((position.x - sunPosition.x) * (position.x - sunPosition.x) +
                                (position.y - sunPosition.y) * (position.y - sunPosition.y))) / 30⟩,
                      force := ⟨0, 0⟩,
                      fixtures := [{ radius := 10 / 30, density := 1, friction := 0,
                                     restitution := 0 }] }],
             destroyed := world.destroyed },
           planets ++
             [{ shape := { radius := 10, origin := ⟨10, 10⟩,
                           fillColor := getRandomColor rand0 rand1 rand2,
                           position := position },
                trail := { primitiveType := .LineStrip, vertices := [] },
                body := world.bodies.length }]) := by
  unfold spawnPlanet
  simp only [b2World.CreateFixture, b2World.SetLinearVelocity, body_CreateBody,
    store_CreateBody, divide_ok _ _ hd, bind, Except.bind, pure, Except.pure]
  simp only [b2World.CreateBody, body_append, store_append, Planet.default, List.nil_append]

/-- Away from the sun, the distance that `spawnPlanet` divides by is not zero. -/
theorem spawn_distance_ne_zero (position sunPosition : Vector2f ℝ)
    (hne : position ≠ sunPosition) :
    Real.sqrt ((position.x - sunPosition.x) * (position.x - sunPosition.x) +
      (position.y - sunPosition.y) * (position.y - sunPosition.y)) ≠ 0 := by
  have h := distanceSq_pos_of_ne position sunPosition hne
  have e : (position.x - sunPosition.x) * (position.x - sunPosition.x) +
      (position.y - sunPosition.y) * (position.y - sunPosition.y) =
      distanceSq position sunPosition := by
    unfold distanceSq
    ring
  rw [e]
  exact (Real.sqrt_pos.mpr h).ne'

/-- C4. When the spawn position `P` differs from the sun's position `A`, the distance
that `spawnPlanet` divides by is non-zero, the call succeeds and appends one planet, and
the linear velocity set on that planet's body has dot product exactly 0 with `P - A`. -/
theorem spawnPlanet_velocity_orthogonal (rand0 rand1 rand2 : Nat) (position : Vector2f ℝ)
    (world : b2World ℝ) (sunPosition : Vector2f ℝ) (planets : List (Planet ℝ))
    (hne : position ≠ sunPosition) :
    Real.sqrt ((position.x - sunPosition.x) * (position.x - sunPosition.x) +
      (position.y - sunPosition.y) * (position.y - sunPosition.y)) ≠ 0 ∧
    ∃ (world' : b2World ℝ) (planet : Planet ℝ) (b : b2Body ℝ),
      spawnPlanet Real.sqrt rand0 rand1 rand2 position world sunPosition planets =
        .ok (world', planets ++ [planet]) ∧
      world'.body planet.body = .ok b ∧
      b.linearVelocity.x * (position.x - sunPosition.x) +
        b.linearVelocity.y * (position.y - sunPosition.y) = 0 := by
  have hd := spawn_distance_ne_zero position sunPosition hne
  refine ⟨hd, _, _, _, spawnPlanet_ok rand0 rand1 rand2 position world sunPosition planets hd,
    body_append world _, ?_⟩
  simp only
  ring

/-- The orthogonality statement for a spawn at `(600, 300)` with the sun at `(400, 300)`. -/
theorem spawnPlanet_velocity_orthogonal_witness :
    (⟨600, 300⟩ : Vector2f ℝ) ≠ ⟨400, 300⟩ ∧
    (Real.sqrt (((600 : ℝ) - 400) * (600 - 400) + ((300 : ℝ) - 300) * (300 - 300)) ≠ 0 ∧
    ∃ (world' : b2World ℝ) (planet : Planet ℝ) (b : b2Body ℝ),
      spawnPlanet Real.sqrt 7 8 9 (⟨600, 300⟩ : Vector2f ℝ) ⟨[], []⟩ ⟨400, 300⟩ [] =
        .ok (world', [] ++ [planet]) ∧
      world'.body planet.body = .ok b ∧
      b.linearVelocity.x * ((600 : ℝ) - 400) + b.linearVelocity.y * ((300 : ℝ) - 300) = 0) :=
  ⟨by simp,
   spawnPlanet_velocity_orthogonal 7 8 9 (⟨600, 300⟩ : Vector2f ℝ) ⟨[], []⟩ ⟨400, 300⟩ []
     (by simp)⟩

/-- C5. When the spawn position `P` differs from the sun's position `A`, with
`(dx, dy) = P - A` and `distance = |P - A|`, `spawnPlanet` succeeds and the velocity set
on the new body is the render-space vector `(-dy, dx) / distance * sqrt(100 * 10000 /
distance)` divided by 30; that render-space vector has length `sqrt(1000000 / distance)`. -/
theorem spawnPlanet_velocity_formula (rand0 rand1 rand2 : Nat) (position : Vector2f ℝ)
    (world : b2World ℝ) (sunPosition : Vector2f ℝ) (planets : List (Planet ℝ))
    (hne : position ≠ sunPosition) :
    ∃ (world' : b2World ℝ) (planet : Planet ℝ) (b : b2Body ℝ) (renderVelocity : Vector2f ℝ),
      spawnPlanet Real.sqrt rand0 rand1 rand2 position world sunPosition planets =
        .ok (world', planets ++ [planet]) ∧
      world'.body planet.body = .ok b ∧
      renderVelocity.x = -(position.y - sunPosition.y) /
          Real.sqrt (distanceSq position sunPosition) *
          Real.sqrt (100 * 10000 / Real.sqrt (distanceSq position sunPosition)) ∧
      renderVelocity.y = (position.x - sunPosition.x) /
          Real.sqrt (distanceSq position sunPosition) *
          Real.sqrt (100 * 10000 / Real.sqrt (distanceSq position sunPosition)) ∧
      Real.sqrt (renderVelocity.x ^ 2 + renderVelocity.y ^ 2) =
        Real.sqrt (1000000 / Real.sqrt (distanceSq position sunPosition)) ∧
      b.linearVelocity = ⟨renderVelocity.x / 30, renderVelocity.y / 30⟩ := by
  have hd := spawn_distance_ne_zero position sunPosition hne
  have e : (position.x - sunPosition.x) * (position.x - sunPosition.x) +
      (position.y - sunPosition.y) * (position.y - sunPosition.y) =
      distanceSq position sunPosition := by
    unfold distanceSq
    ring
  have hpos := distanceSq_pos_of_ne position sunPosition hne
  refine ⟨_, _, _,
    ⟨-(position.y - sunPosition.y) / Real.sqrt (distanceSq position sunPosition) *
        Real.sqrt (100 * 10000 / Real.sqrt (distanceSq position sunPosition)),
      (position.x - sunPosition.x) / Real.sqrt (distanceSq position sunPosition) *
        Real.sqrt (100 * 10000 / Real.sqrt (distanceSq position sunPosition))⟩,
    spawnPlanet_ok rand0 rand1 rand2 position world sunPosition planets hd,
    body_append world _, rfl, rfl, ?_, ?_⟩
  · simp only
    have h := scaled_sq (-(position.y - sunPosition.y)) (position.x - sunPosition.x)
      (distanceSq position sunPosition)
      (Real.sqrt (100 * 10000 / Real.sqrt (distanceSq position sunPosition))) hpos
    have e2 : -(position.y - sunPosition.y) * -(position.y - sunPosition.y) +
        (position.x - sunPosition.x) * (position.x - sunPosition.x) =
        distanceSq position sunPosition := by
      unfold distanceSq
      ring
    rw [h, e2, div_self hpos.ne', one_mul, Real.sqrt_sq (Real.sqrt_nonneg _)]
    norm_num
  · simp only [e]

/-- The velocity formula for a spawn at `(600, 300)` with the sun at `(400, 300)`. -/
theorem spawnPlanet_velocity_formula_witness :
    (⟨600, 300⟩ : Vector2f ℝ) ≠ ⟨400, 300⟩ ∧
    ∃ (world' : b2World ℝ) (planet : Planet ℝ) (b : b2Body ℝ) (renderVelocity : Vector2f ℝ),
      spawnPlanet Real.sqrt 7 8 9 (⟨600, 300⟩ : Vector2f ℝ) ⟨[], []⟩ ⟨400, 300⟩ [] =
        .ok (world', [] ++ [planet]) ∧
      world'.body planet.body = .ok b ∧
      renderVelocity.x = -((300 : ℝ) - 300) /
          Real.sqrt (distanceSq (⟨600, 300⟩ : Vector2f ℝ) ⟨400, 300⟩) *
          Real.sqrt (100 * 10000 / Real.sqrt (distanceSq (⟨600, 300⟩ : Vector2f ℝ) ⟨400, 300⟩)) ∧
      renderVelocity.y = ((600 : ℝ) - 400) /
          Real.sqrt (distanceSq (⟨600, 300⟩ : Vector2f ℝ) ⟨400, 300⟩) *
          Real.sqrt (100 * 10000 / Real.sqrt (distanceSq (⟨600, 300⟩ : Vector2f ℝ) ⟨400, 300⟩)) ∧
      Real.sqrt (renderVelocity.x ^ 2 + renderVelocity.y ^ 2) =
        Real.sqrt (1000000 / Real.sqrt (distanceSq (⟨600, 300⟩ : Vector2f ℝ) ⟨400, 300⟩)) ∧
      b.linearVelocity = ⟨renderVelocity.x / 30, renderVelocity.y / 30⟩ :=
  ⟨by simp,
   spawnPlanet_velocity_formula 7 8 9 (⟨600, 300⟩ : Vector2f ℝ) ⟨[], []⟩ ⟨400, 300⟩ []
     (by simp)⟩

/-! ## The loop of `updatePlanets` -/

/-- A pointer dereferences to `b` exactly when its slot holds `b`. -/
theorem body_eq_ok_iff {F : Type} (world : b2World F) (h : Nat) (b : b2Body F) :
    world.body h = .ok b ↔ world.bodies[h]? = some (some b) := by
  unfold b2World.body
  constructor
  · intro hb
    split at hb
    · rename_i b' hb'
      rw [hb']
      cases hb
      rfl
    · cases hb
  · intro hb
    rw [hb]

/-- Reading back the state just stored on a live body. -/
theorem body_store_self {F : Type} (world : b2World F) (h : Nat) (b c : b2Body F)
    (hb : world.body h = .ok b) : (world.store h c).body h = .ok c := by
  rw [body_eq_ok_iff] at hb ⊢
  have hlt : h < world.bodies.length := by
    by_contra hcon
    rw [List.getElem?_eq_none (not_lt.mp hcon)] at hb
    cases hb
  simp [b2World.store, List.getElem?_set_self, hlt]

/-- On a live body `applyGravity` succeeds and changes only the force of that body. -/
theorem applyGravity_ok (world : b2World ℝ) (planet : Planet ℝ) (sun : Vector2f ℝ)
    (b : b2Body ℝ) (hb : world.body planet.body = .ok b) :
    ∃ f : b2Vec2 ℝ, applyGravity Real.sqrt world planet sun =
      .ok (world.store planet.body { b with force := f }) := by
  obtain ⟨g, hg⟩ : ∃ g, applyGravityForce Real.sqrt b.position sun = .ok g :=
    ⟨_, applyGravityForce_ok _ _⟩
  refine ⟨⟨b.force.x + g.x, b.force.y + g.y⟩, ?_⟩
  rw [applyGravity_eq world planet sun b g hb hg]
  unfold b2World.ApplyForceToCenter
  rw [hb]
  rfl

/-- One iteration of the loop on a live body: the body receives a force, the planet is
tracked in place, and the planet is erased, with its body destroyed, exactly when it is
too close to the sun. -/
theorem updatePlanetsLoop_step (sun : Vector2f ℝ) (fuel i : Nat) (world : b2World ℝ)
    (planets : List (Planet ℝ)) (p : Planet ℝ) (b : b2Body ℝ)
    (position : b2Vec2 ℝ)
    (hi : i < planets.length) (hp : planets[i] = p)
    (hb : world.body p.body = .ok b) (hpos : b.position = position) :
    ∃ f : b2Vec2 ℝ, updatePlanetsLoop Real.sqrt sun (fuel + 1) i world planets =
      if tooClose Real.sqrt sun position = true then
        updatePlanetsLoop Real.sqrt sun fuel
          (((i + SIZE_MODULUS - 1) % SIZE_MODULUS + 1) % SIZE_MODULUS)
          { bodies := (world.store p.body { b with force := f }).bodies.set p.body none,
            destroyed := world.destroyed ++ [p.body] }
          ((planets.set i (trackedPlanet position p)).eraseIdx i)
      else
        updatePlanetsLoop Real.sqrt sun fuel ((i + 1) % SIZE_MODULUS)
          (world.store p.body { b with force := f })
          (planets.set i (trackedPlanet position p)) := by
  subst hpos
  obtain ⟨f, hf⟩ := applyGravity_ok world p sun b hb
  refine ⟨f, ?_⟩
  have hb1 : (world.store p.body { b with force := f }).body p.body =
      .ok { b with force := f } := body_store_self world p.body b _ hb
  rw [updatePlanetsLoop, dif_pos hi]
  simp only [hp, hf, bind, Except.bind, b2World.GetPosition, hb1, pure, Except.pure,
    b2World.DestroyBody]
  by_cases hc : tooClose Real.sqrt sun b.position = true
  · have hc' := hc
    simp only [tooClose, renderPosition, decide_eq_true_eq] at hc'
    rw [if_pos hc, if_pos hc']
    rfl
  · have hc' := hc
    simp only [tooClose, renderPosition, decide_eq_true_eq] at hc'
    rw [if_neg hc, if_neg hc']
    rfl

/-- The element at the boundary index. -/
theorem getElem_length_append_cons {α : Type} (l : List α) (a : α) (r : List α)
    (h : l.length < (l ++ a :: r).length) : (l ++ a :: r)[l.length] = a := by
  induction l with
  | nil => rfl
  | cons x xs ih => simpa using ih (by simp)

/-- Assignment through the reference `planets[i]` at the boundary index. -/
theorem set_length_append_cons {α : Type} (l : List α) (a b : α) (r : List α) :
    (l ++ a :: r).set l.length b = l ++ b :: r := by
  induction l with
  | nil => rfl
  | cons x xs ih => simp [List.set, ih]

/-- The call `planets.erase(planets.begin() + i)` at the boundary index. -/
theorem eraseIdx_length_append_cons {α : Type} (l : List α) (a : α) (r : List α) :
    (l ++ a :: r).eraseIdx l.length = l ++ r := by
  induction l with
  | nil => rfl
  | cons x xs ih => simp [List.eraseIdx, ih]

/-- After `--i` and `++i` in `size_t` arithmetic the index is unchanged, also at 0. -/
theorem size_decrement_increment (i : Nat) (h : i < SIZE_MODULUS) :
    ((i + SIZE_MODULUS - 1) % SIZE_MODULUS + 1) % SIZE_MODULUS = i := by
  unfold SIZE_MODULUS at *
  omega

/-- Without overflow `++i` is the successor. -/
theorem size_increment (i : Nat) (h : i + 1 < SIZE_MODULUS) :
    (i + 1) % SIZE_MODULUS = i + 1 := Nat.mod_eq_of_lt h

/-- The outcome lists when the first planet is too close. -/
theorem survivors_cons_removed (sun : Vector2f ℝ) (pos : Nat → b2Vec2 ℝ) (p : Planet ℝ)
    (rest : List (Planet ℝ)) (hc : tooClose Real.sqrt sun (pos p.body) = true) :
    survivors Real.sqrt sun pos (p :: rest) = survivors Real.sqrt sun pos rest ∧
    removedHandles Real.sqrt sun pos (p :: rest) =
      p.body :: removedHandles Real.sqrt sun pos rest := by
  simp [survivors, removedHandles, List.filter_cons, hc]

/-- The outcome lists when the first planet is not too close. -/
theorem survivors_cons_kept (sun : Vector2f ℝ) (pos : Nat → b2Vec2 ℝ) (p : Planet ℝ)
    (rest : List (Planet ℝ)) (hc : ¬ tooClose Real.sqrt sun (pos p.body) = true) :
    survivors Real.sqrt sun pos (p :: rest) =
      trackedPlanet (pos p.body) p :: survivors Real.sqrt sun pos rest ∧
    removedHandles Real.sqrt sun pos (p :: rest) = removedHandles Real.sqrt sun pos rest := by
  simp [survivors, removedHandles, List.filter_cons, hc]

/-- The loop, started at the boundary between the planets already handled (`done`) and
those still to handle (`todo`), terminates and leaves `done` followed by the survivors of
`todo`. The bodies of `todo` are live with positions `pos` and pairwise distinct. -/
theorem updatePlanetsLoop_spec (sun : Vector2f ℝ) (pos : Nat → b2Vec2 ℝ) :
    ∀ (todo done : List (Planet ℝ)) (world : b2World ℝ) (fuel : Nat),
      todo.length < fuel →
      done.length + todo.length < SIZE_MODULUS →
      (todo.map Planet.body).Nodup →
      (∀ p ∈ todo, ∃ b, world.bodies[p.body]? = some (some b) ∧ b.position = pos p.body) →
      ∃ world' : b2World ℝ,
        updatePlanetsLoop Real.sqrt sun fuel done.length world (done ++ todo) =
          .ok (world', done ++ survivors Real.sqrt sun pos todo) ∧
        world'.destroyed = world.destroyed ++ removedHandles Real.sqrt sun pos todo ∧
        (∀ h, h ∉ todo.map Planet.body → world'.bodies[h]? = world.bodies[h]?) ∧
        (∀ p ∈ todo, tooClose Real.sqrt sun (pos p.body) = true →
          world'.bodies[p.body]? = some none) ∧
        (∀ p ∈ todo, ¬ tooClose Real.sqrt sun (pos p.body) = true →
          ∃ b', world'.bodies[p.body]? = some (some b') ∧ b'.position = pos p.body) := by
  intro todo
  induction todo with
  | nil =>
    intro done world fuel hfuel _ _ _
    obtain ⟨n, rfl⟩ : ∃ n, fuel = n + 1 := ⟨fuel - 1, by simp at hfuel; omega⟩
    refine ⟨world, ?_, ?_, ?_, ?_, ?_⟩
    · rw [updatePlanetsLoop, dif_neg (by simp)]
      simp [survivors]
    · simp [removedHandles]
    · intro h _
      rfl
    · intro p hp
      cases hp
    · intro p hp
      cases hp
  | cons p rest ih =>
    intro done world fuel hfuel hsize hnd hlive
    obtain ⟨n, rfl⟩ : ∃ n, fuel = n + 1 := ⟨fuel - 1, by omega⟩
    have hfuel' : rest.length < n := by
      simp only [List.length_cons] at hfuel
      omega
    simp only [List.length_cons] at hsize
    obtain ⟨b, hbody, hbpos⟩ := hlive p (List.mem_cons_self _ _)
    have hb : world.body p.body = .ok b := (body_eq_ok_iff _ _ _).mpr hbody
    have hlt : p.body < world.bodies.length := by
      by_contra hcon
      rw [List.getElem?_eq_none (not_lt.mp hcon)] at hbody
      cases hbody
    have hi : done.length < (done ++ p :: rest).length := by
      simp
    have hp : (done ++ p :: rest)[done.length] = p := getElem_length_append_cons _ _ _ hi
    obtain ⟨f, hstep⟩ :=
      updatePlanetsLoop_step sun n done.length world (done ++ p :: rest) p b (pos p.body)
        hi hp hb hbpos
    rw [hstep, set_length_append_cons]
    simp only [List.map_cons, List.nodup_cons] at hnd
    obtain ⟨hnotin, hnd'⟩ := hnd
    have hne : ∀ q ∈ rest, q.body ≠ p.body := by
      intro q hq heq
      exact hnotin (heq ▸ List.mem_map_of_mem Planet.body hq)
    by_cases hc : tooClose Real.sqrt sun (pos p.body) = true
    · rw [if_pos hc, eraseIdx_length_append_cons,
        size_decrement_increment _ (by omega)]
      have hlive' : ∀ q ∈ rest, ∃ b',
          ((world.store p.body { b with force := f }).bodies.set p.body none)[q.body]? =
            some (some b') ∧ b'.position = pos q.body := by
        intro q hq
        obtain ⟨bq, hbq, hposq⟩ := hlive q (List.mem_cons_of_mem _ hq)
        refine ⟨bq, ?_, hposq⟩
        simp only [b2World.store]
        rw [List.getElem?_set_ne (Ne.symm (hne q hq)),
          List.getElem?_set_ne (Ne.symm (hne q hq))]
        exact hbq
      obtain ⟨world', hrun, hlog, hframe, hdead, hkept⟩ :=
        ih done
          { bodies := (world.store p.body { b with force := f }).bodies.set p.body none,
            destroyed := world.destroyed ++ [p.body] }
          n hfuel' (by omega) hnd' hlive'
      obtain ⟨hs, hr⟩ := survivors_cons_removed sun pos p rest hc
      refine ⟨world', ?_, ?_, ?_, ?_, ?_⟩
      · rw [hrun, hs]
      · rw [hlog, hr]
        simp
      · intro h hh
        simp only [List.map_cons, List.mem_cons, not_or] at hh
        rw [hframe h hh.2]
        simp only [b2World.store]
        rw [List.getElem?_set_ne (Ne.symm hh.1), List.getElem?_set_ne (Ne.symm hh.1)]
      · intro q hq hcq
        rcases List.mem_cons.mp hq with rfl | hq'
        · rw [hframe _ hnotin]
          simp only [b2World.store]
          rw [List.getElem?_set_self (by simpa using hlt)]
        · exact hdead q hq' hcq
      · intro q hq hcq
        rcases List.mem_cons.mp hq with rfl | hq'
        · exact absurd hc hcq
        · exact hkept q hq' hcq
    · rw [if_neg hc, size_increment _ (by omega)]
      have hlive' : ∀ q ∈ rest, ∃ b',
          (world.store p.body { b with force := f }).bodies[q.body]? =
            some (some b') ∧ b'.position = pos q.body := by
        intro q hq
        obtain ⟨bq, hbq, hposq⟩ := hlive q (List.mem_cons_of_mem _ hq)
        refine ⟨bq, ?_, hposq⟩
        simp only [b2World.store]
        rw [List.getElem?_set_ne (Ne.symm (hne q hq))]
        exact hbq
      have happ : done ++ trackedPlanet (pos p.body) p :: rest =
          (done ++ [trackedPlanet (pos p.body) p]) ++ rest := by simp
      have hlen : done.length + 1 = (done ++ [trackedPlanet (pos p.body) p]).length := by
        simp
      rw [happ, hlen]
      obtain ⟨world', hrun, hlog, hframe, hdead, hkept⟩ :=
        ih (done ++ [trackedPlanet (pos p.body) p])
          (world.store p.body { b with force := f })
          n hfuel' (by simp; omega) hnd' hlive'
      obtain ⟨hs, hr⟩ := survivors_cons_kept sun pos p rest hc
      refine ⟨world', ?_, ?_, ?_, ?_, ?_⟩
      · rw [hrun, hs]
        simp
      · rw [hlog, hr]
        rfl
      · intro h hh
        simp only [List.map_cons, List.mem_cons, not_or] at hh
        rw [hframe h hh.2]
        simp only [b2World.store]
        rw [List.getElem?_set_ne (Ne.symm hh.1)]
      · intro q hq hcq
        rcases List.mem_cons.mp hq with rfl | hq'
        · exact absurd hcq hc
        · exact hdead q hq' hcq
      · intro q hq hcq
        rcases List.mem_cons.mp hq with rfl | hq'
        · refine ⟨{ b with force := f }, ?_, hbpos⟩
          rw [hframe _ hnotin]
          simp only [b2World.store]
          rw [List.getElem?_set_self hlt]
        · exact hkept q hq' hcq

/-- The call `GetPosition` succeeds exactly on a live body, with its position. -/
theorem getPosition_ok_iff {F : Type} (world : b2World F) (h : Nat) (position : b2Vec2 F) :
    world.GetPosition h = .ok position ↔
      ∃ b, world.bodies[h]? = some (some b) ∧ b.position = position := by
  unfold b2World.GetPosition
  constructor
  · intro hg
    cases hb : world.body h with
    | error e =>
      rw [hb] at hg
      cases hg
    | ok b =>
      rw [hb] at hg
      refine ⟨b, (body_eq_ok_iff _ _ _).mp hb, ?_⟩
      cases hg
      rfl
  · rintro ⟨b, hb, rfl⟩
    rw [(body_eq_ok_iff _ _ _).mpr hb]
    rfl

/-- A pointer to an emptied slot is dangling. -/
theorem body_dangling_of_none {F : Type} (world : b2World F) (h : Nat)
    (hn : world.bodies[h]? = some none) : world.body h = .error .danglingBody := by
  unfold b2World.body
  rw [hn]

/-- The meaning of the destruction test in real arithmetic. -/
theorem tooClose_iff (sun : Vector2f ℝ) (planetPos : b2Vec2 ℝ) :
    tooClose Real.sqrt sun planetPos = true ↔
      Real.sqrt (distanceSq sun (renderPosition planetPos)) < 60 := by
  simp [tooClose, distanceSq]

/-- A planet is kept exactly when its distance to the sun is 60 or more. -/
theorem tooClose_false_iff (sun : Vector2f ℝ) (planetPos : b2Vec2 ℝ) :
    tooClose Real.sqrt sun planetPos = false ↔
      60 ≤ Real.sqrt (distanceSq sun (renderPosition planetPos)) := by
  rw [← not_lt, ← tooClose_iff]
  simp

/-- The root of the squared destruction radius. -/
theorem sqrt_3600 : Real.sqrt 3600 = 60 := by
  rw [show (3600 : ℝ) = 60 ^ 2 by norm_num]
  exact Real.sqrt_sq (by norm_num)

/-- What one call of `updatePlanets` does to a well-formed registry. -/
theorem updatePlanets_spec (world : b2World ℝ) (sun : Vector2f ℝ) (deltaTime : ℝ)
    (planets : List (Planet ℝ)) (pos : Nat → b2Vec2 ℝ) (fuel : Nat)
    (hfuel : planets.length < fuel)
    (hsize : planets.length < SIZE_MODULUS)
    (hdistinct : (planets.map Planet.body).Nodup)
    (hlive : ∀ p ∈ planets, world.GetPosition p.body = .ok (pos p.body)) :
    ∃ world' : b2World ℝ,
      updatePlanets Real.sqrt fuel world sun deltaTime planets =
        .ok (world', survivors Real.sqrt sun pos planets) ∧
      world'.destroyed = world.destroyed ++ removedHandles Real.sqrt sun pos planets ∧
      (∀ p ∈ planets, tooClose Real.sqrt sun (pos p.body) = true →
        world'.body p.body = .error .danglingBody) ∧
      (∀ p ∈ planets, tooClose Real.sqrt sun (pos p.body) = false →
        world'.GetPosition p.body = .ok (pos p.body)) := by
  obtain ⟨world', hrun, hlog, _, hdead, hkept⟩ :=
    updatePlanetsLoop_spec sun pos planets [] world fuel hfuel (by simpa using hsize) hdistinct
      (fun p hp => (getPosition_ok_iff _ _ _).mp (hlive p hp))
  refine ⟨world', ?_, hlog, ?_, ?_⟩
  · simpa [updatePlanets] using hrun
  · intro p hp hc
    exact body_dangling_of_none _ _ (hdead p hp hc)
  · intro p hp hc
    exact (getPosition_ok_iff _ _ _).mpr (hkept p hp (by simp [hc]))

/-- The planets left and the planets removed add up to the planets before. -/
theorem survivors_length (sun : Vector2f ℝ) (pos : Nat → b2Vec2 ℝ) (planets : List (Planet ℝ)) :
    (survivors Real.sqrt sun pos planets).length +
      (removedHandles Real.sqrt sun pos planets).length = planets.length := by
  induction planets with
  | nil => rfl
  | cons p rest ih =>
    by_cases hc : tooClose Real.sqrt sun (pos p.body) = true
    · obtain ⟨hs, hr⟩ := survivors_cons_removed sun pos p rest hc
      rw [hs, hr]
      simp only [List.length_cons]
      omega
    · obtain ⟨hs, hr⟩ := survivors_cons_kept sun pos p rest hc
      rw [hs, hr]
      simp only [List.length_cons]
      omega

/-- Tracking a planet does not change its handle. -/
theorem survivors_bodies (sun : Vector2f ℝ) (pos : Nat → b2Vec2 ℝ) (planets : List (Planet ℝ)) :
    (survivors Real.sqrt sun pos planets).map Planet.body =
      (planets.filter (fun p => !tooClose Real.sqrt sun (pos p.body))).map Planet.body := by
  simp [survivors, trackedPlanet, Function.comp_def]

/-- The removed handles are those of the planets that are too close. -/
theorem mem_removedHandles (sun : Vector2f ℝ) (pos : Nat → b2Vec2 ℝ)
    (planets : List (Planet ℝ)) (h : Nat) :
    h ∈ removedHandles Real.sqrt sun pos planets ↔
      ∃ p ∈ planets, tooClose Real.sqrt sun (pos p.body) = true ∧ p.body = h := by
  simp [removedHandles, and_assoc]

/-- The removed handles are pairwise distinct when those of the registry are. -/
theorem removedHandles_nodup (sun : Vector2f ℝ) (pos : Nat → b2Vec2 ℝ)
    (planets : List (Planet ℝ)) (hdistinct : (planets.map Planet.body).Nodup) :
    (removedHandles Real.sqrt sun pos planets).Nodup :=
  List.Nodup.sublist (List.Sublist.map _ (List.filter_sublist _)) hdistinct

/-- The handles left are pairwise distinct when those of the registry are. -/
theorem survivors_nodup (sun : Vector2f ℝ) (pos : Nat → b2Vec2 ℝ)
    (planets : List (Planet ℝ)) (hdistinct : (planets.map Planet.body).Nodup) :
    ((survivors Real.sqrt sun pos planets).map Planet.body).Nodup := by
  rw [survivors_bodies]
  exact List.Nodup.sublist (List.Sublist.map _ (List.filter_sublist _)) hdistinct

/-! ## `updatePlanets`: registry, handles, trails -/

/-- The destruction test depends on a planet only through its body. -/
theorem tooClose_of_same_body (sun : Vector2f ℝ) (pos : Nat → b2Vec2 ℝ) (p q : Planet ℝ)
    (h : q.body = p.body) :
    tooClose Real.sqrt sun (pos q.body) = tooClose Real.sqrt sun (pos p.body) := by
  rw [h]

/-- The handles left are those of the planets that are not too close. -/
theorem mem_survivors_bodies (sun : Vector2f ℝ) (pos : Nat → b2Vec2 ℝ)
    (planets : List (Planet ℝ)) (h : Nat) :
    h ∈ (survivors Real.sqrt sun pos planets).map Planet.body ↔
      ∃ p ∈ planets, tooClose Real.sqrt sun (pos p.body) = false ∧ p.body = h := by
  rw [survivors_bodies]
  simp [and_assoc]

/-- C6. For a registry of fewer than `2^64` planets whose bodies are live, with positions
`pos`, and pairwise distinct, one call of `updatePlanets` (with more fuel than planets)
returns, and the registry it leaves is the planets whose distance to the sun is not below
60, in their original order, each tracked once. A planet at distance below 60 is gone, a
planet at distance 60 or more stays, and the number left plus the number removed is the
number before. -/
theorem updatePlanets_registry (world : b2World ℝ) (sun : Vector2f ℝ) (deltaTime : ℝ)
    (planets : List (Planet ℝ)) (pos : Nat → b2Vec2 ℝ) (fuel : Nat)
    (hfuel : planets.length < fuel)
    (hsize : planets.length < SIZE_MODULUS)
    (hdistinct : (planets.map Planet.body).Nodup)
    (hlive : ∀ p ∈ planets, world.GetPosition p.body = .ok (pos p.body)) :
    ∃ (world' : b2World ℝ) (planets' : List (Planet ℝ)),
      updatePlanets Real.sqrt fuel world sun deltaTime planets = .ok (world', planets') ∧
      planets' = (planets.filter (fun p => !tooClose Real.sqrt sun (pos p.body))).map
        (fun p => trackedPlanet (pos p.body) p) ∧
      planets'.map Planet.body =
        (planets.filter (fun p => !tooClose Real.sqrt sun (pos p.body))).map Planet.body ∧
      List.Sublist (planets'.map Planet.body) (planets.map Planet.body) ∧
      (∀ p ∈ planets, (tooClose Real.sqrt sun (pos p.body) = true ↔
        Real.sqrt (distanceSq sun (renderPosition (pos p.body))) < 60)) ∧
      (∀ p ∈ planets, Real.sqrt (distanceSq sun (renderPosition (pos p.body))) < 60 →
        p.body ∉ planets'.map Planet.body) ∧
      (∀ p ∈ planets, 60 ≤ Real.sqrt (distanceSq sun (renderPosition (pos p.body))) →
        trackedPlanet (pos p.body) p ∈ planets') ∧
      planets'.length +
        (planets.filter (fun p => tooClose Real.sqrt sun (pos p.body))).length =
        planets.length := by
  obtain ⟨world', hrun, _, _, _⟩ :=
    updatePlanets_spec world sun deltaTime planets pos fuel hfuel hsize hdistinct hlive
  refine ⟨world', survivors Real.sqrt sun pos planets, hrun, rfl, survivors_bodies _ _ _,
    ?_, ?_, ?_, ?_, ?_⟩
  · rw [survivors_bodies]
    exact List.Sublist.map _ (List.filter_sublist _)
  · intro p _
    exact tooClose_iff sun (pos p.body)
  · intro p _ hlt hmem
    obtain ⟨q, _, hq, hbody⟩ := (mem_survivors_bodies sun pos planets p.body).mp hmem
    rw [tooClose_of_same_body sun pos p q hbody] at hq
    have := (tooClose_iff sun (pos p.body)).mpr hlt
    rw [hq] at this
    cases this
  · intro p hp hge
    have hc := (tooClose_false_iff sun (pos p.body)).mpr hge
    simp only [survivors, List.mem_map, List.mem_filter]
    exact ⟨p, ⟨hp, by simp [hc]⟩, rfl⟩
  · have h := survivors_length sun pos planets
    simpa [removedHandles] using h

/-- C7. For a registry whose bodies are live and pairwise distinct, one call of
`updatePlanets` passes to `DestroyBody` the handle of each removed planet exactly once
and the handle of no surviving planet; a removed handle is dangling afterwards, a
surviving planet keeps its handle, which stays live, and the handles left in the
registry are pairwise distinct. -/
theorem updatePlanets_handles (world : b2World ℝ) (sun : Vector2f ℝ) (deltaTime : ℝ)
    (planets : List (Planet ℝ)) (pos : Nat → b2Vec2 ℝ) (fuel : Nat)
    (hfuel : planets.length < fuel)
    (hsize : planets.length < SIZE_MODULUS)
    (hdistinct : (planets.map Planet.body).Nodup)
    (hlive : ∀ p ∈ planets, world.GetPosition p.body = .ok (pos p.body)) :
    ∃ (world' : b2World ℝ) (planets' : List (Planet ℝ)) (released : List Nat),
      updatePlanets Real.sqrt fuel world sun deltaTime planets = .ok (world', planets') ∧
      world'.destroyed = world.destroyed ++ released ∧
      (∀ p ∈ planets, tooClose Real.sqrt sun (pos p.body) = true →
        released.count p.body = 1 ∧ p.body ∉ planets'.map Planet.body ∧
        world'.body p.body = .error .danglingBody) ∧
      (∀ p ∈ planets, tooClose Real.sqrt sun (pos p.body) = false →
        released.count p.body = 0 ∧ p.body ∈ planets'.map Planet.body ∧
        world'.GetPosition p.body = .ok (pos p.body)) ∧
      (∀ h ∈ released, ∃ p ∈ planets, p.body = h ∧
        tooClose Real.sqrt sun (pos p.body) = true) ∧
      (planets'.map Planet.body).Nodup ∧
      planets'.map Planet.body =
        (planets.filter (fun p => !tooClose Real.sqrt sun (pos p.body))).map Planet.body := by
  obtain ⟨world', hrun, hlog, hdead, hkept⟩ :=
    updatePlanets_spec world sun deltaTime planets pos fuel hfuel hsize hdistinct hlive
  refine ⟨world', survivors Real.sqrt sun pos planets,
    removedHandles Real.sqrt sun pos planets, hrun, hlog, ?_, ?_, ?_,
    survivors_nodup sun pos planets hdistinct, survivors_bodies _ _ _⟩
  · intro p hp hc
    refine ⟨?_, ?_, hdead p hp hc⟩
    · exact List.count_eq_one_of_mem (removedHandles_nodup sun pos planets hdistinct)
        ((mem_removedHandles sun pos planets p.body).mpr ⟨p, hp, hc, rfl⟩)
    · intro hmem
      obtain ⟨q, _, hq, hbody⟩ := (mem_survivors_bodies sun pos planets p.body).mp hmem
      rw [tooClose_of_same_body sun pos p q hbody, hc] at hq
      cases hq
  · intro p hp hc
    refine ⟨?_, ?_, hkept p hp hc⟩
    · apply List.count_eq_zero_of_not_mem
      intro hmem
      obtain ⟨q, _, hq, hbody⟩ := (mem_removedHandles sun pos planets p.body).mp hmem
      rw [tooClose_of_same_body sun pos p q hbody, hc] at hq
      cases hq
    · exact (mem_survivors_bodies sun pos planets p.body).mpr ⟨p, hp, hc, rfl⟩
  · intro h hmem
    obtain ⟨p, hp, hc, hbody⟩ := (mem_removedHandles sun pos planets h).mp hmem
    exact ⟨p, hp, hbody, hc⟩

/-- C8. For a registry whose bodies are live and pairwise distinct, every planet that
survives one call of `updatePlanets` is left in the registry with its trail extended by
exactly one vertex, its body's position times 30 with the planet's own fill colour, the
earlier vertices unchanged; the planet left is a function of that planet and of its own
body's position alone. Every planet left in the registry arises in this way. -/
theorem updatePlanets_trail (world : b2World ℝ) (sun : Vector2f ℝ) (deltaTime : ℝ)
    (planets : List (Planet ℝ)) (pos : Nat → b2Vec2 ℝ) (fuel : Nat)
    (hfuel : planets.length < fuel)
    (hsize : planets.length < SIZE_MODULUS)
    (hdistinct : (planets.map Planet.body).Nodup)
    (hlive : ∀ p ∈ planets, world.GetPosition p.body = .ok (pos p.body)) :
    ∃ (world' : b2World ℝ) (planets' : List (Planet ℝ)),
      updatePlanets Real.sqrt fuel world sun deltaTime planets = .ok (world', planets') ∧
      (∀ p ∈ planets, tooClose Real.sqrt sun (pos p.body) = false →
        ∃ q ∈ planets', q = trackedPlanet (pos p.body) p ∧ q.body = p.body ∧
          q.trail.vertices = p.trail.vertices ++
            [⟨renderPosition (pos p.body), p.shape.fillColor⟩] ∧
          q.trail.vertices.length = p.trail.vertices.length + 1 ∧
          q.trail.primitiveType = p.trail.primitiveType ∧
          q.shape.position = renderPosition (pos p.body) ∧
          q.shape.fillColor = p.shape.fillColor ∧
          (∀ q' ∈ planets', q'.body = p.body → q' = q)) ∧
      (∀ q ∈ planets', ∃ p ∈ planets, tooClose Real.sqrt sun (pos p.body) = false ∧
        q = trackedPlanet (pos p.body) p) := by
  obtain ⟨world', hrun, _, _, _⟩ :=
    updatePlanets_spec world sun deltaTime planets pos fuel hfuel hsize hdistinct hlive
  have hmem : ∀ q, q ∈ survivors Real.sqrt sun pos planets ↔
      ∃ p ∈ planets, tooClose Real.sqrt sun (pos p.body) = false ∧
        q = trackedPlanet (pos p.body) p := by
    intro q
    simp only [survivors, List.mem_map, List.mem_filter, Bool.not_eq_true',
      and_assoc]
    constructor
    · rintro ⟨p, hp, hc, rfl⟩
      exact ⟨p, hp, hc, rfl⟩
    · rintro ⟨p, hp, hc, rfl⟩
      exact ⟨p, hp, hc, rfl⟩
  refine ⟨world', survivors Real.sqrt sun pos planets, hrun, ?_, ?_⟩
  · intro p hp hc
    refine ⟨trackedPlanet (pos p.body) p, (hmem _).mpr ⟨p, hp, hc, rfl⟩, rfl, rfl, rfl,
      by simp [trackedPlanet], rfl, rfl, rfl, ?_⟩
    intro q' hq' hbody
    obtain ⟨p', hp', _, rfl⟩ := (hmem q').mp hq'
    have hb : p'.body = p.body := hbody
    have hpp : p' = p := by
      have hinj := List.inj_on_of_nodup_map hdistinct
      exact hinj hp' hp hb
    rw [hpp]
  · intro q hq
    exact (hmem q).mp hq

/-! ## Spawn, then one step without integration -/

/-- In real arithmetic, dividing by 30 and multiplying by 30 gives the position back. -/
theorem renderPosition_scaled (position : Vector2f ℝ) :
    renderPosition (⟨position.x / 30, position.y / 30⟩ : b2Vec2 ℝ) = position := by
  rcases position with ⟨x, y⟩
  simp only [renderPosition]
  congr 1 <;> field_simp

/-- The squared distance is symmetric. -/
theorem distanceSq_comm (a b : Vector2f ℝ) : distanceSq a b = distanceSq b a := by
  unfold distanceSq
  ring

/-- The outcome of `spawnPlanet` away from the sun: one new body at `position / 30`, one
new planet record. -/
theorem spawnPlanet_result (rand0 rand1 rand2 : Nat) (position : Vector2f ℝ)
    (world : b2World ℝ) (sunPosition : Vector2f ℝ) (planets : List (Planet ℝ))
    (hne : position ≠ sunPosition) :
    ∃ b : b2Body ℝ,
      spawnPlanet Real.sqrt rand0 rand1 rand2 position world sunPosition planets =
        .ok ({ bodies := world.bodies ++ [some b], destroyed := world.destroyed },
             planets ++
               [spawnedPlanet (getRandomColor rand0 rand1 rand2) position
                  world.bodies.length]) ∧
      b.position = ⟨position.x / 30, position.y / 30⟩ :=
  ⟨_, spawnPlanet_ok rand0 rand1 rand2 position world sunPosition planets
    (spawn_distance_ne_zero position sunPosition hne), rfl⟩

/-- C9, amended. In exact real arithmetic: from an empty registry, with the sun at
`(400, 300)` and a spawn position `P` at distance 200 from it, `spawnPlanet` followed by
`updatePlanets` on the world as `spawnPlanet` left it (no integration in between,
`deltaTime = 0`) leaves a registry of exactly one planet. Its shape is at the stored
position `P / 30` read back times 30, which in real arithmetic is `P`, and its trail is
the single vertex `P` with the planet's colour; its body is still live at `P / 30` and
nothing was destroyed. -/
theorem spawnPlanet_then_updatePlanets (rand0 rand1 rand2 : Nat) (position : Vector2f ℝ)
    (world : b2World ℝ) (fuel : Nat)
    (hdist : Real.sqrt (distanceSq position ⟨400, 300⟩) = 200)
    (hfuel : 1 < fuel) :
    ∃ (world1 : b2World ℝ) (planets1 : List (Planet ℝ)) (world2 : b2World ℝ)
      (planet : Planet ℝ),
      spawnPlanet Real.sqrt rand0 rand1 rand2 position world ⟨400, 300⟩ [] =
        .ok (world1, planets1) ∧
      updatePlanets Real.sqrt fuel world1 ⟨400, 300⟩ 0 planets1 = .ok (world2, [planet]) ∧
      planet.shape.position = renderPosition ⟨position.x / 30, position.y / 30⟩ ∧
      planet.shape.position = position ∧
      planet.trail.vertices = [⟨position, getRandomColor rand0 rand1 rand2⟩] ∧
      world1.GetPosition planet.body = .ok ⟨position.x / 30, position.y / 30⟩ ∧
      world2.GetPosition planet.body = .ok ⟨position.x / 30, position.y / 30⟩ ∧
      world2.destroyed = world.destroyed := by
  have hne : position ≠ ⟨400, 300⟩ := by
    intro h
    rw [h] at hdist
    simp [distanceSq] at hdist
  obtain ⟨b, hspawn, hbpos⟩ :=
    spawnPlanet_result rand0 rand1 rand2 position world ⟨400, 300⟩ [] hne
  rw [List.nil_append] at hspawn
  have hfar : tooClose Real.sqrt (⟨400, 300⟩ : Vector2f ℝ)
      (⟨position.x / 30, position.y / 30⟩ : b2Vec2 ℝ) = false := by
    rw [tooClose_false_iff, renderPosition_scaled, distanceSq_comm, hdist]
    norm_num
  have hget : b2World.GetPosition
      ({ bodies := world.bodies ++ [some b], destroyed := world.destroyed } : b2World ℝ)
      world.bodies.length = .ok ⟨position.x / 30, position.y / 30⟩ := by
    simp only [b2World.GetPosition, body_append]
    rw [← hbpos]
    rfl
  obtain ⟨world2, hrun, hlog, _, hkept⟩ :=
    updatePlanets_spec
      ({ bodies := world.bodies ++ [some b], destroyed := world.destroyed } : b2World ℝ)
      (⟨400, 300⟩ : Vector2f ℝ) 0
      [spawnedPlanet (getRandomColor rand0 rand1 rand2) position world.bodies.length]
      (fun _ => (⟨position.x / 30, position.y / 30⟩ : b2Vec2 ℝ)) fuel
      (by simpa using hfuel) (by simp [SIZE_MODULUS]) (by simp)
      (by
        intro p hp
        rw [List.mem_singleton] at hp
        subst hp
        exact hget)
  have hsurv : survivors Real.sqrt (⟨400, 300⟩ : Vector2f ℝ)
      (fun _ => (⟨position.x / 30, position.y / 30⟩ : b2Vec2 ℝ))
      [spawnedPlanet (getRandomColor rand0 rand1 rand2) position world.bodies.length] =
      [trackedPlanet (⟨position.x / 30, position.y / 30⟩ : b2Vec2 ℝ)
        (spawnedPlanet (getRandomColor rand0 rand1 rand2) position world.bodies.length)] := by
    simp [survivors, hfar]
  have hrem : removedHandles Real.sqrt (⟨400, 300⟩ : Vector2f ℝ)
      (fun _ => (⟨position.x / 30, position.y / 30⟩ : b2Vec2 ℝ))
      [spawnedPlanet (getRandomColor rand0 rand1 rand2) position world.bodies.length] =
      [] := by
    simp [removedHandles, hfar]
  rw [hsurv] at hrun
  rw [hrem] at hlog
  refine ⟨_, _, world2, _, hspawn, hrun, rfl, ?_, ?_, hget, ?_, ?_⟩
  · simp only [trackedPlanet, renderPosition_scaled]
  · simp only [trackedPlanet, renderPosition_scaled, spawnedPlanet, List.nil_append]
  · exact hkept (spawnedPlanet (getRandomColor rand0 rand1 rand2) position world.bodies.length)
      (List.mem_singleton.mpr rfl) hfar
  · simpa using hlog

/-- C9, refuted as stated. In binary32 arithmetic, with the sun at `(400, 300)` and the
spawn position `P = (400, 500)`, at distance exactly 200, line 30 stores `500 / 30` as
`8738133 / 524288` (about 16.666666) and line 101 reads it back times 30 as
`16383999 / 32768` (about 499.99997, one place below 500). After `spawnPlanet` and one
`updatePlanets` the registry holds one planet, whose shape and single trail vertex are at
`(400, 16383999 / 32768)`, not at `P`. The distance tested on line 109 is about 200, far
from 60 in single and in double precision. -/
theorem spawnPlanet_then_updatePlanets_binary32 :
    Binary32.sqrt (distanceSq (⟨400, 500⟩ : Vector2f Binary32) ⟨400, 300⟩) = 200 ∧
    (500 : Binary32) / 30 = ⟨8738133 / 524288⟩ ∧
    (⟨8738133 / 524288⟩ : Binary32) * 30 = ⟨16383999 / 32768⟩ ∧
    ∃ (world1 : b2World Binary32) (planets1 : List (Planet Binary32))
      (world2 : b2World Binary32) (planet : Planet Binary32),
      spawnPlanet Binary32.sqrt 7 8 9 ⟨400, 500⟩ ⟨[], []⟩ ⟨400, 300⟩ [] =
        .ok (world1, planets1) ∧
      updatePlanets Binary32.sqrt 2 world1 ⟨400, 300⟩ 0 planets1 = .ok (world2, [planet]) ∧
      planet.shape.position = ⟨400, ⟨16383999 / 32768⟩⟩ ∧
      planet.shape.position ≠ ⟨400, 500⟩ ∧
      planet.trail.vertices = [⟨⟨400, ⟨16383999 / 32768⟩⟩, getRandomColor 7 8 9⟩] := by
  have hrun : (spawnPlanet Binary32.sqrt 7 8 9 (⟨400, 500⟩ : Vector2f Binary32) ⟨[], []⟩
        ⟨400, 300⟩ [] >>= fun s =>
      updatePlanets Binary32.sqrt 2 s.1 ⟨400, 300⟩ 0 s.2).toOption.map
      (fun s => s.2.map (fun p => (p.shape.position, p.trail.vertices))) =
    some [(⟨400, ⟨16383999 / 32768⟩⟩,
      [⟨⟨400, ⟨16383999 / 32768⟩⟩, getRandomColor 7 8 9⟩])] := by
    decide!
  refine ⟨by decide!, by decide!, by decide!, ?_⟩
  cases h1 : spawnPlanet Binary32.sqrt 7 8 9 (⟨400, 500⟩ : Vector2f Binary32) ⟨[], []⟩
      ⟨400, 300⟩ [] with
  | error e =>
    rw [h1] at hrun
    cases hrun
  | ok s1 =>
    rw [h1] at hrun
    cases h2 : updatePlanets Binary32.sqrt 2 s1.1 ⟨400, 300⟩ 0 s1.2 with
    | error e =>
      have hb : (Except.ok s1 >>= fun s =>
          updatePlanets Binary32.sqrt 2 s.1 (⟨400, 300⟩ : Vector2f Binary32) 0 s.2) =
          updatePlanets Binary32.sqrt 2 s1.1 ⟨400, 300⟩ 0 s1.2 := rfl
      rw [hb, h2] at hrun
      cases hrun
    | ok s2 =>
      have hb : (Except.ok s1 >>= fun s =>
          updatePlanets Binary32.sqrt 2 s.1 (⟨400, 300⟩ : Vector2f Binary32) 0 s.2) =
          updatePlanets Binary32.sqrt 2 s1.1 ⟨400, 300⟩ 0 s1.2 := rfl
      rw [hb, h2] at hrun
      simp only [Except.toOption, Option.map_some', Option.some.injEq] at hrun
      obtain ⟨world2, planets2⟩ := s2
      cases planets2 with
      | nil => simp only [List.map_nil] at hrun; cases hrun
      | cons planet rest =>
        cases rest with
        | cons q r => simp only [List.map_cons, List.cons.injEq] at hrun; cases hrun.2
        | nil =>
          simp only [List.map_cons, List.map_nil, List.cons.injEq, Prod.mk.injEq,
            and_true] at hrun
          refine ⟨s1.1, s1.2, world2, planet, rfl, h2, hrun.1, ?_, hrun.2⟩
          rw [hrun.1]
          decide!

/-- In binary32 the two roundings cancel at the spawn position `(600, 300)`: the planet
left in the registry is at its spawn position. -/
theorem binary32_round_trip_exact :
    (spawnPlanet Binary32.sqrt 7 8 9 (⟨600, 300⟩ : Vector2f Binary32) ⟨[], []⟩
        ⟨400, 300⟩ [] >>= fun s =>
      updatePlanets Binary32.sqrt 2 s.1 ⟨400, 300⟩ 0 s.2).toOption.map
      (fun s => s.2.map (fun p => p.shape.position)) = some [⟨⟨600⟩, ⟨300⟩⟩] := by
  decide!

/-- The root of `200 ^ 2`. -/
theorem sqrt_40000 : Real.sqrt 40000 = 200 := by
  rw [show (40000 : ℝ) = 200 ^ 2 by norm_num]
  exact Real.sqrt_sq (by norm_num)

/-- The spawn-then-step statement for the spawn position `(600, 300)` in an empty world. -/
theorem spawnPlanet_then_updatePlanets_witness :
    (Real.sqrt (distanceSq (⟨600, 300⟩ : Vector2f ℝ) ⟨400, 300⟩) = 200 ∧ 1 < 2) ∧
    ∃ (world1 : b2World ℝ) (planets1 : List (Planet ℝ)) (world2 : b2World ℝ)
      (planet : Planet ℝ),
      spawnPlanet Real.sqrt 7 8 9 (⟨600, 300⟩ : Vector2f ℝ) ⟨[], []⟩ ⟨400, 300⟩ [] =
        .ok (world1, planets1) ∧
      updatePlanets Real.sqrt 2 world1 ⟨400, 300⟩ 0 planets1 = .ok (world2, [planet]) ∧
      planet.shape.position = renderPosition ⟨(600 : ℝ) / 30, (300 : ℝ) / 30⟩ ∧
      planet.shape.position = ⟨600, 300⟩ ∧
      planet.trail.vertices = [⟨⟨600, 300⟩, getRandomColor 7 8 9⟩] ∧
      world1.GetPosition planet.body = .ok ⟨(600 : ℝ) / 30, (300 : ℝ) / 30⟩ ∧
      world2.GetPosition planet.body = .ok ⟨(600 : ℝ) / 30, (300 : ℝ) / 30⟩ ∧
      world2.destroyed = [] :=
  ⟨⟨by norm_num [distanceSq, sqrt_40000], by decide⟩,
   spawnPlanet_then_updatePlanets 7 8 9 (⟨600, 300⟩ : Vector2f ℝ) ⟨[], []⟩ 2
     (by norm_num [distanceSq, sqrt_40000]) (by decide)⟩

/-! ## A concrete registry -/

/-- Five units of fuel are enough for the concrete registry. -/
theorem examplePlanets_length : (examplePlanets : List (Planet ℝ)).length < 5 := by
  simp [examplePlanets]

/-- The concrete registry fits a `size_t` index. -/
theorem examplePlanets_size : (examplePlanets : List (Planet ℝ)).length < SIZE_MODULUS := by
  simp [examplePlanets, SIZE_MODULUS]

/-- The handles of the concrete registry are pairwise distinct. -/
theorem examplePlanets_distinct :
    ((examplePlanets : List (Planet ℝ)).map Planet.body).Nodup := by
  simp [examplePlanets, spawnedPlanet]

/-- The bodies of the concrete registry are live at `examplePositions`. -/
theorem examplePlanets_live :
    ∀ p ∈ (examplePlanets : List (Planet ℝ)),
      (exampleWorld : b2World ℝ).GetPosition p.body = .ok (examplePositions p.body) := by
  intro p hp
  simp only [examplePlanets, List.mem_cons, List.mem_singleton, List.not_mem_nil,
    or_false] at hp
  rcases hp with rfl | rfl | rfl | rfl <;> rfl

/-- The destruction test on the squared distance. -/
theorem tooClose_iff_sq (sun : Vector2f ℝ) (planetPos : b2Vec2 ℝ) :
    tooClose Real.sqrt sun planetPos = true ↔
      distanceSq sun (renderPosition planetPos) < 3600 := by
  rw [tooClose_iff, Real.sqrt_lt' (by norm_num)]
  norm_num

/-- In the concrete registry the planets at indices 0 and 1 are removed, their bodies
destroyed in that order, and the planets at distance exactly 60 and at distance 180
are left. -/
theorem updatePlanets_example :
    ∃ world' : b2World ℝ,
      updatePlanets Real.sqrt 5 exampleWorld ⟨420, 300⟩ 0 examplePlanets =
        .ok (world',
          [trackedPlanet ⟨12, 10⟩ (spawnedPlanet ⟨7, 8, 9, 255⟩ ⟨360, 300⟩ 2),
           trackedPlanet ⟨20, 10⟩ (spawnedPlanet ⟨10, 11, 12, 255⟩ ⟨600, 300⟩ 3)]) ∧
      world'.destroyed = [0, 1] := by
  obtain ⟨world', hrun, hlog, _, _⟩ :=
    updatePlanets_spec exampleWorld ⟨420, 300⟩ 0 examplePlanets examplePositions 5
      examplePlanets_length examplePlanets_size examplePlanets_distinct examplePlanets_live
  have h0 : tooClose Real.sqrt (⟨420, 300⟩ : Vector2f ℝ) (⟨14, 10⟩ : b2Vec2 ℝ) = true := by
    rw [tooClose_iff_sq]
    norm_num [distanceSq, renderPosition]
  have h1 : tooClose Real.sqrt (⟨420, 300⟩ : Vector2f ℝ) (⟨13, 10⟩ : b2Vec2 ℝ) = true := by
    rw [tooClose_iff_sq]
    norm_num [distanceSq, renderPosition]
  have h2 : tooClose Real.sqrt (⟨420, 300⟩ : Vector2f ℝ) (⟨12, 10⟩ : b2Vec2 ℝ) = false := by
    rw [← Bool.not_eq_true, tooClose_iff_sq]
    norm_num [distanceSq, renderPosition]
  have h3 : tooClose Real.sqrt (⟨420, 300⟩ : Vector2f ℝ) (⟨20, 10⟩ : b2Vec2 ℝ) = false := by
    rw [← Bool.not_eq_true, tooClose_iff_sq]
    norm_num [distanceSq, renderPosition]
  refine ⟨world', ?_, ?_⟩
  · rw [hrun]
    simp [survivors, examplePlanets, examplePositions, spawnedPlanet, h0, h1, h2, h3]
  · rw [hlog]
    simp [removedHandles, examplePlanets, examplePositions, exampleWorld, spawnedPlanet,
      h0, h1, h2, h3]

/-! ## The registry statements at the concrete registry -/

/-- The registry statement at the concrete registry. -/
theorem updatePlanets_registry_witness :
    ((examplePlanets : List (Planet ℝ)).length < 5 ∧
      (examplePlanets : List (Planet ℝ)).length < SIZE_MODULUS ∧
      ((examplePlanets : List (Planet ℝ)).map Planet.body).Nodup ∧
      ∀ p ∈ (examplePlanets : List (Planet ℝ)),
        (exampleWorld : b2World ℝ).GetPosition p.body = .ok (examplePositions p.body)) ∧
    ∃ (world' : b2World ℝ) (planets' : List (Planet ℝ)),
      updatePlanets Real.sqrt 5 exampleWorld ⟨420, 300⟩ 0 examplePlanets =
        .ok (world', planets') ∧
      planets' = ((examplePlanets : List (Planet ℝ)).filter
          (fun p => !tooClose Real.sqrt ⟨420, 300⟩ (examplePositions p.body))).map
        (fun p => trackedPlanet (examplePositions p.body) p) ∧
      planets'.map Planet.body =
        ((examplePlanets : List (Planet ℝ)).filter
          (fun p => !tooClose Real.sqrt ⟨420, 300⟩ (examplePositions p.body))).map
          Planet.body ∧
      List.Sublist (planets'.map Planet.body)
        ((examplePlanets : List (Planet ℝ)).map Planet.body) ∧
      (∀ p ∈ (examplePlanets : List (Planet ℝ)),
        (tooClose Real.sqrt ⟨420, 300⟩ (examplePositions p.body) = true ↔
          Real.sqrt (distanceSq ⟨420, 300⟩ (renderPosition (examplePositions p.body))) < 60)) ∧
      (∀ p ∈ (examplePlanets : List (Planet ℝ)),
        Real.sqrt (distanceSq ⟨420, 300⟩ (renderPosition (examplePositions p.body))) < 60 →
        p.body ∉ planets'.map Planet.body) ∧
      (∀ p ∈ (examplePlanets : List (Planet ℝ)),
        60 ≤ Real.sqrt (distanceSq ⟨420, 300⟩ (renderPosition (examplePositions p.body))) →
        trackedPlanet (examplePositions p.body) p ∈ planets') ∧
      planets'.length +
        ((examplePlanets : List (Planet ℝ)).filter
          (fun p => tooClose Real.sqrt ⟨420, 300⟩ (examplePositions p.body))).length =
        (examplePlanets : List (Planet ℝ)).length :=
  ⟨⟨by simp [examplePlanets], by simp [examplePlanets, SIZE_MODULUS],
    by simp [examplePlanets, spawnedPlanet], examplePlanets_live⟩,
   updatePlanets_registry exampleWorld ⟨420, 300⟩ 0 examplePlanets examplePositions 5
     (by simp [examplePlanets]) (by simp [examplePlanets, SIZE_MODULUS])
     (by simp [examplePlanets, spawnedPlanet]) examplePlanets_live⟩

/-- The handle statement at the concrete registry. -/
theorem updatePlanets_handles_witness :
    ((examplePlanets : List (Planet ℝ)).length < 5 ∧
      (examplePlanets : List (Planet ℝ)).length < SIZE_MODULUS ∧
      ((examplePlanets : List (Planet ℝ)).map Planet.body).Nodup ∧
      ∀ p ∈ (examplePlanets : List (Planet ℝ)),
        (exampleWorld : b2World ℝ).GetPosition p.body = .ok (examplePositions p.body)) ∧
    ∃ (world' : b2World ℝ) (planets' : List (Planet ℝ)) (released : List Nat),
      updatePlanets Real.sqrt 5 exampleWorld ⟨420, 300⟩ 0 examplePlanets =
        .ok (world', planets') ∧
      world'.destroyed = (exampleWorld : b2World ℝ).destroyed ++ released ∧
      (∀ p ∈ (examplePlanets : List (Planet ℝ)),
        tooClose Real.sqrt ⟨420, 300⟩ (examplePositions p.body) = true →
        released.count p.body = 1 ∧ p.body ∉ planets'.map Planet.body ∧
        world'.body p.body = .error .danglingBody) ∧
      (∀ p ∈ (examplePlanets : List (Planet ℝ)),
        tooClose Real.sqrt ⟨420, 300⟩ (examplePositions p.body) = false →
        released.count p.body = 0 ∧ p.body ∈ planets'.map Planet.body ∧
        world'.GetPosition p.body = .ok (examplePositions p.body)) ∧
      (∀ h ∈ released, ∃ p ∈ (examplePlanets : List (Planet ℝ)), p.body = h ∧
        tooClose Real.sqrt ⟨420, 300⟩ (examplePositions p.body) = true) ∧
      (planets'.map Planet.body).Nodup ∧
      planets'.map Planet.body =
        ((examplePlanets : List (Planet ℝ)).filter
          (fun p => !tooClose Real.sqrt ⟨420, 300⟩ (examplePositions p.body))).map
          Planet.body :=
  ⟨⟨by simp [examplePlanets], by simp [examplePlanets, SIZE_MODULUS],
    by simp [examplePlanets, spawnedPlanet], examplePlanets_live⟩,
   updatePlanets_handles exampleWorld ⟨420, 300⟩ 0 examplePlanets examplePositions 5
     (by simp [examplePlanets]) (by simp [examplePlanets, SIZE_MODULUS])
     (by simp [examplePlanets, spawnedPlanet]) examplePlanets_live⟩

/-- The trail statement at the concrete registry. -/
theorem updatePlanets_trail_witness :
    ((examplePlanets : List (Planet ℝ)).length < 5 ∧
      (examplePlanets : List (Planet ℝ)).length < SIZE_MODULUS ∧
      ((examplePlanets : List (Planet ℝ)).map Planet.body).Nodup ∧
      ∀ p ∈ (examplePlanets : List (Planet ℝ)),
        (exampleWorld : b2World ℝ).GetPosition p.body = .ok (examplePositions p.body)) ∧
    ∃ (world' : b2World ℝ) (planets' : List (Planet ℝ)),
      updatePlanets Real.sqrt 5 exampleWorld ⟨420, 300⟩ 0 examplePlanets =
        .ok (world', planets') ∧
      (∀ p ∈ (examplePlanets : List (Planet ℝ)),
        tooClose Real.sqrt ⟨420, 300⟩ (examplePositions p.body) = false →
        ∃ q ∈ planets', q = trackedPlanet (examplePositions p.body) p ∧ q.body = p.body ∧
          q.trail.vertices = p.trail.vertices ++
            [⟨renderPosition (examplePositions p.body), p.shape.fillColor⟩] ∧
          q.trail.vertices.length = p.trail.vertices.length + 1 ∧
          q.trail.primitiveType = p.trail.primitiveType ∧
          q.shape.position = renderPosition (examplePositions p.body) ∧
          q.shape.fillColor = p.shape.fillColor ∧
          (∀ q' ∈ planets', q'.body = p.body → q' = q)) ∧
      (∀ q ∈ planets', ∃ p ∈ (examplePlanets : List (Planet ℝ)),
        tooClose Real.sqrt ⟨420, 300⟩ (examplePositions p.body) = false ∧
        q = trackedPlanet (examplePositions p.body) p) :=
  ⟨⟨by simp [examplePlanets], by simp [examplePlanets, SIZE_MODULUS],
    by simp [examplePlanets, spawnedPlanet], examplePlanets_live⟩,
   updatePlanets_trail exampleWorld ⟨420, 300⟩ 0 examplePlanets examplePositions 5
     (by simp [examplePlanets]) (by simp [examplePlanets, SIZE_MODULUS])
     (by simp [examplePlanets, spawnedPlanet]) examplePlanets_live⟩

end SolarSystem
